import Mathlib

/-!
# product-app: the product repository, its in-memory fake and the id-parsing handlers

A shallow embedding of

* `persistence/product_repository.go` (`ProductRepository`), run against a model of the
  storage collaborator: a `products` table, a statement front-end for the SQL fragment the
  repository sends, and a driver that may fail any statement;
* `test/service/fake_product_repository.go` (`FakeProductRepository`);
* the two handlers of `controller/product_controller.go` that parse a path identifier with
  `strconv.Atoi`.

Go errors are represented by their message (`Option String`, `none` for `nil`).
-/

namespace ProductApp

/-! ## Data model -/

/-- Go `float32`, kept as its IEEE-754 bit pattern (the low 32 bits of `bits`). The program
only stores such values and compares them with the constant `0`. -/
structure F32 where
  bits : Nat
deriving DecidableEq, Repr

/-- Go `x != 0` on a `float32`: false exactly for `+0` and `-0` (every bit below the sign
bit clear), true for everything else, NaN included. -/
def F32.ne0 (x : F32) : Bool :=
  x.bits % 2147483648 != 0

/-- The `float32` zero value `+0`. -/
def F32.zero : F32 := ⟨0⟩

/-- The `float32` is a NaN or an infinity: all eight exponent bits are set. -/
def F32.isNaNOrInf (x : F32) : Bool :=
  x.bits / 8388608 % 256 == 255

/-- Modelled from the spec: the record type `domain.Product` (package `domain` is not among
the sources): identifier (64-bit integer), name (text), price and discount (32-bit floating
point), store (text). The field names are the ones the repository uses. -/
structure Product where
  Id : Int
  Name : String
  Price : F32
  Discount : F32
  Store : String
deriving DecidableEq, Repr

/-- Go `domain.Product{}`: every field at its zero value. -/
def Product.zero : Product := ⟨0, "", F32.zero, F32.zero, ""⟩

/-- Go `fmt.Sprintf("%d", i)` for an integer. -/
def sprintD (i : Int) : String :=
  match i with
  | Int.ofNat n => Nat.repr n
  | Int.negSucc n => "-" ++ Nat.repr (n + 1)

/-! ## Storage collaborator: statement front-end -/

/-- A statement argument as the driver sends it: `string`, `float32` or `int64`. -/
inductive Arg where
  | text (s : String)
  | real (x : F32)
  | bigint (i : Int)
deriving DecidableEq, Repr

/-- Lexical tokens of the statement fragment. -/
inductive Tok where
  | word (s : String)
  | ph (n : Nat)
  | sym (c : Char)
deriving DecidableEq, Repr

/-- Lexer state: between tokens, inside a word, or inside a placeholder `$<digits>`. -/
inductive Lex where
  | idle
  | word (acc : List Char)
  | ph (acc : List Char)
deriving DecidableEq, Repr

def isDigitChar (c : Char) : Bool :=
  decide (48 ≤ c.toNat) && decide (c.toNat ≤ 57)

def isLetterChar (c : Char) : Bool :=
  (decide (65 ≤ c.toNat) && decide (c.toNat ≤ 90))
    || (decide (97 ≤ c.toNat) && decide (c.toNat ≤ 122)) || decide (c.toNat = 95)

def isSymChar (c : Char) : Bool :=
  c == '*' || c == '=' || c == ',' || c == '(' || c == ')'

/-- Value of a decimal digit string, most significant digit first. -/
def digitsVal (ds : List Char) : Nat :=
  ds.foldl (fun n c => 10 * n + (c.toNat - 48)) 0

/-- Close the token under construction. A `$` with no digit is a lexical error. -/
def Lex.flush : Lex → Option (List Tok)
  | Lex.idle => some []
  | Lex.word acc => some [Tok.word (String.mk acc)]
  | Lex.ph acc => if acc.isEmpty then none else some [Tok.ph (digitsVal acc)]

/-- Lexer: blanks separate tokens, `* = , ( )` are one-character tokens, `$<digits>` is a
placeholder, letters, digits and `_` form words. Anything else is rejected. -/
def tokenize : List Char → Lex → Option (List Tok)
  | [], st => st.flush
  | c :: cs, st =>
    if c == ' ' then
      match st.flush, tokenize cs Lex.idle with
      | some a, some b => some (a ++ b)
      | _, _ => none
    else if isSymChar c then
      match st.flush, tokenize cs Lex.idle with
      | some a, some b => some (a ++ Tok.sym c :: b)
      | _, _ => none
    else if c == '$' then
      match st.flush, tokenize cs (Lex.ph []) with
      | some a, some b => some (a ++ b)
      | _, _ => none
    else if isDigitChar c then
      match st with
      | Lex.ph acc => tokenize cs (Lex.ph (acc ++ [c]))
      | Lex.word acc => tokenize cs (Lex.word (acc ++ [c]))
      | Lex.idle => none
    else if isLetterChar c then
      match st with
      | Lex.ph _ => none
      | Lex.word acc => tokenize cs (Lex.word (acc ++ [c]))
      | Lex.idle => tokenize cs (Lex.word [c])
    else none

/-- Modelled from the spec: the assignable columns of the relational table
`products(id, name, price, discount, store)`, whose schema script is not among the sources. -/
inductive Col where
  | name
  | price
  | discount
  | store
deriving DecidableEq, Repr

def Col.ofName (s : String) : Option Col :=
  if s = "name" then some Col.name
  else if s = "price" then some Col.price
  else if s = "discount" then some Col.discount
  else if s = "store" then some Col.store
  else none

/-- The statements of the fragment; the numbers are placeholder indices. -/
inductive Stmt where
  | selectAll
  | selectByStore (p : Nat)
  | selectById (p : Nat)
  | insert (n p d s : Nat)
  | deleteById (p : Nat)
  | update (sets : List (Col × Nat)) (p : Nat)
deriving DecidableEq, Repr

/-- The `SET` list `<column> = $<n>` separated by commas, at least one assignment and no
trailing comma; returns the assignments and the tokens after the list. `fuel` bounds the
number of assignments. -/
def parseSets : Nat → List Tok → Option (List (Col × Nat) × List Tok)
  | 0, _ => none
  | fuel + 1, Tok.word c :: Tok.sym '=' :: Tok.ph n :: rest =>
    match Col.ofName c with
    | none => none
    | some col =>
      match rest with
      | Tok.sym ',' :: rest1 =>
        match parseSets fuel rest1 with
        | some (more, rest2) => some ((col, n) :: more, rest2)
        | none => none
      | _ => some ([(col, n)], rest)
  | _ + 1, _ => none

/-- Parser of the fragment over the token list. -/
def parseToks : List Tok → Option Stmt
  | [Tok.word "SELECT", Tok.sym '*', Tok.word "FROM", Tok.word "products"] =>
    some Stmt.selectAll
  | [Tok.word "SELECT", Tok.sym '*', Tok.word "FROM", Tok.word "products",
      Tok.word "WHERE", Tok.word w, Tok.sym '=', Tok.ph p] =>
    if w = "store" then some (Stmt.selectByStore p)
    else if w = "id" then some (Stmt.selectById p)
    else none
  | [Tok.word "INSERT", Tok.word "INTO", Tok.word "products",
      Tok.sym '(', Tok.word "name", Tok.sym ',', Tok.word "price", Tok.sym ',',
      Tok.word "discount", Tok.sym ',', Tok.word "store", Tok.sym ')',
      Tok.word "VALUES",
      Tok.sym '(', Tok.ph n, Tok.sym ',', Tok.ph p, Tok.sym ',', Tok.ph d, Tok.sym ',',
      Tok.ph s, Tok.sym ')'] =>
    some (Stmt.insert n p d s)
  | [Tok.word "DELETE", Tok.word "FROM", Tok.word "products",
      Tok.word "WHERE", Tok.word "id", Tok.sym '=', Tok.ph p] =>
    some (Stmt.deleteById p)
  | Tok.word "UPDATE" :: Tok.word "products" :: Tok.word "SET" :: rest =>
    match parseSets rest.length rest with
    | some (sets, [Tok.word "WHERE", Tok.word "id", Tok.sym '=', Tok.ph p]) =>
      some (Stmt.update sets p)
    | _ => none
  | _ => none

/-- Statement text to statement, `none` for a text outside the fragment (a syntax error). -/
def parseStmt (sql : String) : Option Stmt :=
  match tokenize sql.data Lex.idle with
  | some toks => parseToks toks
  | none => none

/-! ## Storage collaborator: table and driver -/

/-- Modelled from the spec: the state of the relational table
`products(id, name, price, discount, store)`, whose schema script is not among the sources:
the rows in storage order and the sequence from which the store assigns the next identifier.
Identifiers are unique because the store rejects an insert whose identifier is taken. -/
structure Table where
  rows : List Product
  nextId : Int
deriving DecidableEq, Repr

/-- The argument bound to placeholder `$n` (placeholders count from 1). -/
def argAt (args : List Arg) (n : Nat) : Option Arg :=
  match n with
  | 0 => none
  | k + 1 => args.get? k

/-- Number of parameters of a statement: its highest placeholder. -/
def Stmt.arity : Stmt → Nat
  | Stmt.selectAll => 0
  | Stmt.selectByStore p => p
  | Stmt.selectById p => p
  | Stmt.insert n p d s => max (max n p) (max d s)
  | Stmt.deleteById p => p
  | Stmt.update sets p => (sets.map Prod.snd).foldl max p

/-- One column assignment on a row; `none` when the argument has the wrong type. -/
def applySet (r : Product) (col : Col) (a : Arg) : Option Product :=
  match col, a with
  | Col.name, Arg.text s => some ⟨r.Id, s, r.Price, r.Discount, r.Store⟩
  | Col.price, Arg.real x => some ⟨r.Id, r.Name, x, r.Discount, r.Store⟩
  | Col.discount, Arg.real x => some ⟨r.Id, r.Name, r.Price, x, r.Store⟩
  | Col.store, Arg.text s => some ⟨r.Id, r.Name, r.Price, r.Discount, s⟩
  | _, _ => none

/-- All assignments of a `SET` list on a row, left to right. -/
def applySets (args : List Arg) : List (Col × Nat) → Product → Option Product
  | [], r => some r
  | (col, n) :: rest, r =>
    match argAt args n with
    | none => none
    | some a =>
      match applySet r col a with
      | none => none
      | some r1 => applySets args rest r1

/-- Execution of a parsed statement on the table: the rows it returns and the table
afterwards, or the store's error. The number of arguments must be the statement's number of
parameters and each argument must have its column's type. `INSERT` takes the identifier from
the sequence (which advances even when the insert is rejected) and is rejected when a row
already has that identifier. An `UPDATE` may not assign a column twice. -/
def execStmt (t : Table) (st : Stmt) (args : List Arg) : Except String (List Product) × Table :=
  if args.length ≠ st.arity then (Except.error "wrong number of arguments", t)
  else
    match st with
    | Stmt.selectAll => (Except.ok t.rows, t)
    | Stmt.selectByStore p =>
      match argAt args p with
      | some (Arg.text s) => (Except.ok (t.rows.filter (fun r => decide (r.Store = s))), t)
      | _ => (Except.error "invalid argument type", t)
    | Stmt.selectById p =>
      match argAt args p with
      | some (Arg.bigint i) => (Except.ok (t.rows.filter (fun r => decide (r.Id = i))), t)
      | _ => (Except.error "invalid argument type", t)
    | Stmt.insert n p d s =>
      match argAt args n, argAt args p, argAt args d, argAt args s with
      | some (Arg.text name), some (Arg.real price), some (Arg.real discount),
          some (Arg.text store) =>
        if t.rows.any (fun r => decide (r.Id = t.nextId)) then
          (Except.error "duplicate key value violates unique constraint",
            ⟨t.rows, t.nextId + 1⟩)
        else
          (Except.ok [], ⟨t.rows ++ [⟨t.nextId, name, price, discount, store⟩], t.nextId + 1⟩)
      | _, _, _, _ => (Except.error "invalid argument type", t)
    | Stmt.deleteById p =>
      match argAt args p with
      | some (Arg.bigint i) =>
        (Except.ok [], ⟨t.rows.filter (fun r => !decide (r.Id = i)), t.nextId⟩)
      | _ => (Except.error "invalid argument type", t)
    | Stmt.update sets p =>
      match argAt args p with
      | some (Arg.bigint i) =>
        if ¬ (sets.map Prod.fst).Nodup then
          (Except.error "multiple assignments to same column", t)
        else if (applySets args sets Product.zero).isNone then
          (Except.error "invalid argument type", t)
        else
          (Except.ok [],
            ⟨t.rows.map (fun r =>
                if r.Id = i then (applySets args sets r).getD r else r), t.nextId⟩)
      | _ => (Except.error "invalid argument type", t)

/-- The connection pool as the repository sees it: the table behind it, a fault plan and the
log of the statements sent so far. Each statement consumes the head of the fault plan:
`some e` makes the driver fail that statement with error `e` without touching the table
(connection failure), `none` or an exhausted plan lets the store execute it. -/
structure Pool where
  table : Table
  faults : List (Option String)
  log : List (String × List Arg)
deriving DecidableEq, Repr

/-- A pool with no planned fault and an empty log over table `t`. -/
def Pool.healthy (t : Table) : Pool := ⟨t, [], []⟩

/-- The fault planned for the next statement. -/
def Pool.nextFault (pool : Pool) : Option String := pool.faults.headD none

/-- Send one statement: log it, consume one entry of the fault plan, and unless the driver
fails let the store parse and execute it. -/
def Pool.send (pool : Pool) (sql : String) (args : List Arg) :
    Except String (List Product) × Pool :=
  let log1 := pool.log ++ [(sql, args)]
  match pool.nextFault with
  | some e => (Except.error e, ⟨pool.table, pool.faults.tail, log1⟩)
  | none =>
    match parseStmt sql with
    | none => (Except.error "syntax error", ⟨pool.table, pool.faults.tail, log1⟩)
    | some st =>
      let res := execStmt pool.table st args
      (res.1, ⟨res.2, pool.faults.tail, log1⟩)

/-- Message of `pgx.ErrNoRows`, the driver's error for a row query without result. -/
def ErrNoRows : String := "no rows in result set"

/-- Driver `pgxpool.Pool.Query`: the result rows or the error. -/
def Pool.Query (pool : Pool) (sql : String) (args : List Arg) :
    Except String (List Product) × Pool :=
  pool.send sql args

/-- Driver `pgxpool.Pool.QueryRow` followed by `Row.Scan`: the first result row, the
statement's error, or `pgx.ErrNoRows` when the result is empty. -/
def Pool.QueryRow (pool : Pool) (sql : String) (args : List Arg) :
    Except String Product × Pool :=
  match pool.send sql args with
  | (Except.error e, pool1) => (Except.error e, pool1)
  | (Except.ok [], pool1) => (Except.error ErrNoRows, pool1)
  | (Except.ok (r :: _), pool1) => (Except.ok r, pool1)

/-- Driver `pgxpool.Pool.Exec`: the error (`none` for `nil`); the command tag is dropped. -/
def Pool.Exec (pool : Pool) (sql : String) (args : List Arg) : Option String × Pool :=
  match pool.send sql args with
  | (Except.error e, pool1) => (some e, pool1)
  | (Except.ok _, pool1) => (none, pool1)

/-- Modelled from the spec: the constant `common.NOT_FOUND` (package `persistence/common` is
not among the sources). GetById "fails with not found if zero rows match", and the
repository test expects the not-found message for an absent identifier, so the constant is
the message of the driver's zero-rows error. -/
def NOT_FOUND : String := "no rows in result set"

/-! ## `persistence/product_repository.go` -/

namespace ProductRepository

/-- The loop of Go `extractProductsForRows`: each element of the stream is the outcome of
`Scan` on one row and `products` is the slice built so far. A row that scans is appended; a
failing `Scan` ends the loop with the empty slice. -/
def extractProductsForRows.loop : List (Except String Product) → List Product → List Product
  | [], products => products
  | Except.error _ :: _, _ => []
  | Except.ok r :: rest, products =>
    extractProductsForRows.loop rest
      (products ++ [Product.mk r.Id r.Name r.Price r.Discount r.Store])

/-- Go `extractProductsForRows` on the stream of scanned rows, starting from the nil slice.
The stream is taken as the driver delivers it: `rows.Err()` is never read, so a stream the
driver cuts short looks to this function like a shorter result. -/
def extractProductsForRows (productRows : List (Except String Product)) : List Product :=
  extractProductsForRows.loop productRows []

/-- Go `ProductRepository.GetAllProducts`. The rows the store delivers have the column types
of the scan targets, so each of them scans. -/
def GetAllProducts (pool : Pool) : List Product × Pool :=
  match pool.Query "SELECT * FROM products" [] with
  | (Except.error _, pool1) => ([], pool1)
  | (Except.ok productRows, pool1) =>
    (extractProductsForRows (productRows.map Except.ok), pool1)

/-- Go `ProductRepository.GetAllProductsByStore`. The rows the store delivers have the
column types of the scan targets, so each of them scans. -/
def GetAllProductsByStore (pool : Pool) (storeName : String) : List Product × Pool :=
  let getProductsByStoreNameSql := "SELECT * FROM products WHERE store = $1"
  match pool.Query getProductsByStoreNameSql [Arg.text storeName] with
  | (Except.error _, pool1) => ([], pool1)
  | (Except.ok productRows, pool1) =>
    (extractProductsForRows (productRows.map Except.ok), pool1)

/-- Go `ProductRepository.AddProduct`: the error of the insert, `none` for `nil`. -/
def AddProduct (pool : Pool) (product : Product) : Option String × Pool :=
  let addProductSql :=
    "INSERT INTO products (name, price, discount, store) VALUES ($1, $2, $3, $4)"
  match pool.Exec addProductSql
      [Arg.text product.Name, Arg.real product.Price, Arg.real product.Discount,
        Arg.text product.Store] with
  | (some err, pool1) => (some err, pool1)
  | (none, pool1) => (none, pool1)

/-- Go `ProductRepository.GetProductById`. -/
def GetProductById (pool : Pool) (productId : Int) : (Product × Option String) × Pool :=
  let getProductByIdSql := "SELECT * FROM products WHERE id = $1"
  match pool.QueryRow getProductByIdSql [Arg.bigint productId] with
  | (Except.error err, pool1) =>
    if err = NOT_FOUND then
      ((Product.zero, some ("Product with id " ++ sprintD productId ++ " not found")), pool1)
    else
      ((Product.zero,
        some ("Error while getting product with id " ++ sprintD productId ++ " not found")),
        pool1)
  | (Except.ok r, pool1) =>
    ((Product.mk r.Id r.Name r.Price r.Discount r.Store, none), pool1)

/-- Go `ProductRepository.checkProductExists`. -/
def checkProductExists (pool : Pool) (productId : Int) : Option String × Pool :=
  match GetProductById pool productId with
  | ((_, some _), pool1) =>
    (some ("Product with id " ++ sprintD productId ++ " not found"), pool1)
  | ((_, none), pool1) => (none, pool1)

/-- Go `ProductRepository.DeleteProductById`. -/
def DeleteProductById (pool : Pool) (productId : Int) : Option String × Pool :=
  match checkProductExists pool productId with
  | (some getErr, pool1) => (some getErr, pool1)
  | (none, pool1) =>
    let deleteProductSql := "DELETE FROM products WHERE id = $1"
    match pool1.Exec deleteProductSql [Arg.bigint productId] with
    | (some _, pool2) =>
      (some ("Error while deleting product with id " ++ sprintD productId), pool2)
    | (none, pool2) => (none, pool2)

/-- Go `s[:len(s)-1]` for a string whose last byte is a whole character, as is the case in
`UpdateProduct`, where the text ends in `,` or in a blank. -/
def dropLastByte (s : String) : String := String.mk s.data.dropLast

/-- The statement under construction in `UpdateProduct`: the variables `updateProductSql`,
`updateArgs` and `argId`. -/
structure UpdateBuild where
  updateProductSql : String
  updateArgs : List Arg
  argId : Int
deriving DecidableEq, Repr

/-- The part of Go `ProductRepository.UpdateProduct` that builds the statement text and the
argument list (from the initial text up to the appended identifier). -/
def updateStatement (product : Product) : String × List Arg :=
  let b0 : UpdateBuild := ⟨"UPDATE products SET ", [], 1⟩
  let b1 : UpdateBuild :=
    if product.Name ≠ "" then
      ⟨b0.updateProductSql ++ ("name = $" ++ sprintD b0.argId ++ ","),
        b0.updateArgs ++ [Arg.text product.Name], b0.argId + 1⟩
    else b0
  let b2 : UpdateBuild :=
    if product.Price.ne0 then
      ⟨b1.updateProductSql ++ ("price = $" ++ sprintD b1.argId ++ ","),
        b1.updateArgs ++ [Arg.real product.Price], b1.argId + 1⟩
    else b1
  let b3 : UpdateBuild :=
    if product.Discount.ne0 then
      ⟨b2.updateProductSql ++ ("discount = $" ++ sprintD b2.argId ++ ","),
        b2.updateArgs ++ [Arg.real product.Discount], b2.argId + 1⟩
    else b2
  let b4 : UpdateBuild :=
    if product.Store ≠ "" then
      ⟨b3.updateProductSql ++ ("store = $" ++ sprintD b3.argId ++ ","),
        b3.updateArgs ++ [Arg.text product.Store], b3.argId + 1⟩
    else b3
  (dropLastByte b4.updateProductSql ++ (" WHERE id = $" ++ sprintD b4.argId),
    b4.updateArgs ++ [Arg.bigint product.Id])

/-- Go `ProductRepository.UpdateProduct`. -/
def UpdateProduct (pool : Pool) (product : Product) : Option String × Pool :=
  match checkProductExists pool product.Id with
  | (some getErr, pool1) => (some getErr, pool1)
  | (none, pool1) =>
    let stmt := updateStatement product
    match pool1.Exec stmt.1 stmt.2 with
    | (some _, pool2) =>
      (some ("Error while updating product with id " ++ sprintD product.Id), pool2)
    | (none, pool2) => (none, pool2)

end ProductRepository

/-! ## `test/service/fake_product_repository.go` -/

namespace FakeProductRepository

/-- Go `FakeProductRepository.GetAllProducts`. -/
def GetAllProducts (products : List Product) : List Product := products

/-- Go `FakeProductRepository.GetAllProductsByStore`: the loop appending every product of
the wanted store. -/
def GetAllProductsByStore (products : List Product) (storeName : String) : List Product :=
  products.foldl
    (fun productsByStore product =>
      if product.Store = storeName then productsByStore ++ [product] else productsByStore)
    []

/-- Go `FakeProductRepository.AddProduct`: the identifier becomes `len(products) + 1` and
the product is appended. The error is always `nil`; the new list is returned. -/
def AddProduct (products : List Product) (product : Product) : List Product :=
  products ++
    [Product.mk ((products.length : Int) + 1) product.Name product.Price product.Discount
      product.Store]

/-- Go `FakeProductRepository.GetProductById`: the first product with the identifier, the
zero product when there is none; the error is `nil` in both cases. -/
def GetProductById (products : List Product) (productId : Int) : Product × Option String :=
  match products with
  | [] => (Product.zero, none)
  | product :: rest =>
    if product.Id = productId then (product, none) else GetProductById rest productId

/-- Go `FakeProductRepository.DeleteProductById`: at the first index `i` whose product has
the identifier the list becomes `products[:i]` followed by `products[i+1:]`; without such an
index it is left as it is. -/
def DeleteProductById (products : List Product) (productId : Int) : List Product :=
  match products with
  | [] => []
  | product :: rest =>
    if product.Id = productId then rest else product :: DeleteProductById rest productId

/-- Go `FakeProductRepository.UpdateProduct`: at the first index `i` whose product has the
identifier of `product`, `products[i]` becomes `product`; without such an index the list is
left as it is. -/
def UpdateProduct (products : List Product) (product : Product) : List Product :=
  match products with
  | [] => []
  | p :: rest =>
    if p.Id = product.Id then product :: rest else p :: UpdateProduct rest product

end FakeProductRepository

/-! ## `strconv.Atoi` (Go standard library) -/

/-- A Go string as its bytes. -/
abbrev Bytes := List Nat

/-- The bytes of a string of ASCII characters. -/
def bytesOf (s : String) : Bytes := s.data.map Char.toNat

/-- Go `strconv.IntSize` on the 64-bit platforms the service is built for. -/
def intSize : Nat := 64

/-- The two errors of `strconv`: `ErrSyntax` and `ErrRange`. -/
inductive NumError where
  | ErrSyntax
  | ErrRange
deriving DecidableEq, Repr

/-- The digit loop of Go `strconv.ParseUint(s, 10, 0)`: `n` is the value so far. A byte
that is not a decimal digit is a syntax error (a letter has a digit value of at least 10,
the base); `n >= cutoff` or an overflowing addition is a range error with value
`maxUint64`, reported before the rest of the string is looked at. -/
def ParseUint.loop : Bytes → Nat → Nat × Option NumError
  | [], n => (n, none)
  | c :: cs, n =>
    if 48 ≤ c ∧ c ≤ 57 then
      let d := c - 48
      let cutoff := (2 ^ 64 - 1) / 10 + 1
      let maxVal := 2 ^ intSize - 1
      if n ≥ cutoff then (maxVal, some NumError.ErrRange)
      else
        let n10 := n * 10 % 2 ^ 64
        let n1 := (n10 + d) % 2 ^ 64
        if n1 < n10 ∨ n1 > maxVal then (maxVal, some NumError.ErrRange)
        else ParseUint.loop cs n1
    else (0, some NumError.ErrSyntax)

/-- Go `strconv.ParseUint(s, 10, 0)`. -/
def ParseUint (s : Bytes) : Nat × Option NumError :=
  if s = [] then (0, some NumError.ErrSyntax) else ParseUint.loop s 0

/-- Go `int64(un)` for a `uint64`. -/
def int64OfUint64 (un : Nat) : Int :=
  if un % 2 ^ 64 < 2 ^ 63 then ((un % 2 ^ 64 : Nat) : Int) else ((un % 2 ^ 64 : Nat) : Int) - 2 ^ 64

/-- Go `-n` on an `int64`. -/
def negInt64 (n : Int) : Int :=
  if n = -(2 ^ 63) then n else -n

/-- Go `strconv.ParseInt(s, 10, 0)`: on a range error the value is the bound of `int` of
the sign of the input. -/
def ParseInt (s : Bytes) : Int × Option NumError :=
  match s with
  | [] => (0, some NumError.ErrSyntax)
  | c :: cs =>
    let neg := decide (c = 45)
    let s1 := if c = 43 ∨ c = 45 then cs else s
    let r := ParseUint s1
    if r.2 = some NumError.ErrSyntax then (0, some NumError.ErrSyntax)
    else
      let un := r.1
      let cutoff := 2 ^ (intSize - 1)
      if !neg ∧ un ≥ cutoff then (((cutoff - 1 : Nat) : Int), some NumError.ErrRange)
      else if neg ∧ un > cutoff then (-((cutoff : Nat) : Int), some NumError.ErrRange)
      else
        let n := int64OfUint64 un
        (if neg then negInt64 n else n, none)

/-- The digit loop of the fast path of Go `strconv.Atoi`: `ch -= '0'` on a byte, a syntax
error when the result exceeds 9. -/
def Atoi.loop : Bytes → Int → Int × Option NumError
  | [], n => (n, none)
  | ch :: rest, n =>
    let ch1 := (ch % 256 + 256 - 48) % 256
    if ch1 > 9 then (0, some NumError.ErrSyntax)
    else Atoi.loop rest (n * 10 + (ch1 : Int))

/-- Go `strconv.Atoi`: the fast path for strings of fewer than 19 bytes, `ParseInt`
otherwise. Returns the value and the error (`none` for `nil`). -/
def Atoi (s : Bytes) : Int × Option NumError :=
  match s with
  | [] => ParseInt s
  | c :: cs =>
    if s.length < 19 then
      let s1 := if c = 45 ∨ c = 43 then cs else s
      if s1.length < 1 then (0, some NumError.ErrSyntax)
      else
        let r := Atoi.loop s1 0
        match r.2 with
        | some e => (0, some e)
        | none => (if c = 45 then -r.1 else r.1, none)
    else ParseInt s

/-! ## `controller/product_controller.go` -/

/-- Modelled from the spec: the two methods of the interface `service.IProductService`
(package `service` is not among the sources) that the identifier handlers call; the service
is a pass-through to the repository and returns the same outcomes. `σ` is the state behind
the service. -/
structure IProductService (σ : Type) where
  GetProductById : σ → Int → (Product × Option String) × σ
  DeleteProductById : σ → Int → Option String × σ

/-- Go `response.ErrorResponse`. -/
structure ErrorResponse where
  ErrorDescription : String
deriving DecidableEq, Repr

/-- Go `response.GetProductByIdResponse`. -/
structure GetProductByIdResponse where
  Id : Int
  Name : String
  Price : F32
  Discount : F32
  Store : String
deriving DecidableEq, Repr

/-- Go `GetProductByIdResponse.ToResponse`. -/
def GetProductByIdResponse.ToResponse (product : Product) : GetProductByIdResponse :=
  ⟨product.Id, product.Name, product.Price, product.Discount, product.Store⟩

/-- The value a handler serialises as the JSON body, or no body. -/
inductive Body where
  | product (r : GetProductByIdResponse)
  | error (e : ErrorResponse)
  | message (m : String)
  | noContent
deriving DecidableEq, Repr

/-- What a handler writes: the status code and the body. -/
structure HttpResponse where
  status : Nat
  body : Body
deriving DecidableEq, Repr

namespace ProductController

/-- The part of Go `ProductController.GetProductById` after the service call. `c.JSON`
cannot serialise a price or discount that is a NaN or an infinity; it then writes nothing
and the handler returns its error, which the framework's default error handler answers with
status 500 and the message "Internal Server Error". -/
def respondGetProductById {σ : Type} (r : (Product × Option String) × σ) : HttpResponse × σ :=
  match r with
  | ((_, some err), st1) => (⟨404, Body.error ⟨err⟩⟩, st1)
  | ((product, none), st1) =>
    let responseProduct := GetProductByIdResponse.ToResponse product
    if responseProduct.Price.isNaNOrInf || responseProduct.Discount.isNaNOrInf then
      (⟨500, Body.message "Internal Server Error"⟩, st1)
    else (⟨200, Body.product responseProduct⟩, st1)

/-- Go `ProductController.GetProductById`; `id` is `c.Param("id")`. The error of `Atoi` is
discarded and `int64(productId)` is the identity on an `int` of 64 bits. -/
def GetProductById {σ : Type} (productService : IProductService σ) (st : σ) (id : Bytes) :
    HttpResponse × σ :=
  let productId := (Atoi id).1
  respondGetProductById (productService.GetProductById st productId)

/-- The part of Go `ProductController.DeleteProductById` after the service call. -/
def respondDeleteProductById {σ : Type} (r : Option String × σ) : HttpResponse × σ :=
  match r with
  | (some err, st1) => (⟨404, Body.error ⟨err⟩⟩, st1)
  | (none, st1) => (⟨204, Body.noContent⟩, st1)

/-- Go `ProductController.DeleteProductById`; `id` is `c.Param("id")`. -/
def DeleteProductById {σ : Type} (productService : IProductService σ) (st : σ) (id : Bytes) :
    HttpResponse × σ :=
  let productId := (Atoi id).1
  respondDeleteProductById (productService.DeleteProductById st productId)

end ProductController

/-- A service that only records the identifiers it is called with. -/
def recordingService : IProductService (List Int) :=
  ⟨fun st i => ((Product.zero, none), st ++ [i]), fun st i => (none, st ++ [i])⟩

/-! ## Specification-side definitions and auxiliary notions -/

/-- The four products the repository tests expect after their setup, with the identifier
sequence past them. Prices and discounts are the bit patterns of 3000, 1500, 10000, 2000 and
of 22, 10, 15, 0. -/
def seedTable : Table :=
  ⟨[⟨1, "AirFryer", ⟨1161527296⟩, ⟨1102053376⟩, "ABC TECH"⟩,
    ⟨2, "Ütü", ⟨1153138688⟩, ⟨1092616192⟩, "ABC TECH"⟩,
    ⟨3, "Çamaşır Makinesi", ⟨1176256512⟩, ⟨1097859072⟩, "ABC TECH"⟩,
    ⟨4, "Lambader", ⟨1157234688⟩, ⟨0⟩, "Dekorasyon Sarayı"⟩], 5⟩


/-- The pool after one statement that left the table as it was. -/
def Pool.logged (pool : Pool) (sql : String) (args : List Arg) : Pool :=
  ⟨pool.table, pool.faults.tail, pool.log ++ [(sql, args)]⟩

/-- The message of `GetProductById` and `checkProductExists` for a missing product. -/
def notFoundMsg (productId : Int) : String :=
  "Product with id " ++ sprintD productId ++ " not found"

/-- The message of `GetProductById` for a read that failed otherwise. -/
def readFailedMsg (productId : Int) : String :=
  "Error while getting product with id " ++ sprintD productId ++ " not found"

/-- The statement text of `GetProductById`. -/
def getByIdSql : String := "SELECT * FROM products WHERE id = $1"

/-- The statement text of `DeleteProductById`. -/
def deleteSql : String := "DELETE FROM products WHERE id = $1"

/-- The eligible fields of a record in the fixed order name, price, discount, store: the
column name and the value of every field that is not at its default. -/
def eligibleFields (p : Product) : List (String × Arg) :=
  (if p.Name ≠ "" then [("name", Arg.text p.Name)] else [])
    ++ (if p.Price.ne0 then [("price", Arg.real p.Price)] else [])
    ++ (if p.Discount.ne0 then [("discount", Arg.real p.Discount)] else [])
    ++ (if p.Store ≠ "" then [("store", Arg.text p.Store)] else [])

/-- The assignments `<column> = $<n>` for the columns `cols`, numbered from `first`. -/
def numberedAssignments : List String → Nat → List String
  | [], _ => []
  | c :: cs, first => (c ++ " = $" ++ sprintD first) :: numberedAssignments cs (first + 1)

/-- The statement text as the specification words it: the assignments of the columns
numbered from 1 and separated by commas, and the identifier placeholder numbered after
them. -/
def specUpdateText (cols : List String) : String :=
  "UPDATE products SET " ++ String.intercalate "," (numberedAssignments cols 1)
    ++ " WHERE id = $" ++ sprintD (cols.length + 1)

/-- The row after an update as the specification words it: every non-default field of `u`
overwrites the stored one, the others and the identifier stay. -/
def mergeUpdate (r u : Product) : Product :=
  ⟨r.Id,
    if u.Name ≠ "" then u.Name else r.Name,
    if u.Price.ne0 then u.Price else r.Price,
    if u.Discount.ne0 then u.Discount else r.Discount,
    if u.Store ≠ "" then u.Store else r.Store⟩

/-- The statement text for each set of eligible fields. -/
def updateText (n p d s : Bool) : String :=
  specUpdateText
    ((if n then ["name"] else []) ++ (if p then ["price"] else [])
      ++ (if d then ["discount"] else []) ++ (if s then ["store"] else []))

/-- The columns of a set of eligible fields, in the fixed order. -/
def colsOf (n p d s : Bool) : List Col :=
  (if n then [Col.name] else []) ++ (if p then [Col.price] else [])
    ++ (if d then [Col.discount] else []) ++ (if s then [Col.store] else [])

/-- Columns paired with consecutive placeholder numbers from `first`. -/
def numberCols : List Col → Nat → List (Col × Nat)
  | [], _ => []
  | c :: cs, first => (c, first) :: numberCols cs (first + 1)

/-- The statement text of `AddProduct`. -/
def insertSql : String :=
  "INSERT INTO products (name, price, discount, store) VALUES ($1, $2, $3, $4)"

/-- A mutating call on the fake repository. -/
inductive FakeOp where
  | add (product : Product)
  | update (product : Product)
  | delete (productId : Int)
deriving DecidableEq, Repr

namespace FakeProductRepository

/-- The product list after one mutating call. -/
def step (products : List Product) : FakeOp → List Product
  | FakeOp.add product => AddProduct products product
  | FakeOp.update product => UpdateProduct products product
  | FakeOp.delete productId => DeleteProductById products productId

/-- The product list after a sequence of mutating calls. -/
def run (products : List Product) (ops : List FakeOp) : List Product :=
  ops.foldl step products

/-- The stored products have pairwise distinct identifiers. -/
def distinctIds (products : List Product) : Prop :=
  (products.map (fun p => p.Id)).Nodup

instance (products : List Product) : Decidable (distinctIds products) := by
  unfold distinctIds
  infer_instance

/-- Every `AddProduct` of the sequence is made when no stored product has the identifier
`len(products) + 1` it is about to assign. -/
def addsFresh : List Product → List FakeOp → Prop
  | _, [] => True
  | products, FakeOp.add product :: rest =>
    (∀ x ∈ products, x.Id ≠ (products.length : Int) + 1)
      ∧ addsFresh (step products (FakeOp.add product)) rest
  | products, op :: rest => addsFresh (step products op) rest

end FakeProductRepository

/-- The value of a string of decimal digits read after the value `n`. -/
def decimalFrom (n : Nat) (s : Bytes) : Nat :=
  s.foldl (fun v c => 10 * v + (c - 48)) n

/-- Every byte is a decimal digit `0`..`9`. -/
def allDigits (s : Bytes) : Prop := ∀ c ∈ s, 48 ≤ c ∧ c ≤ 57

instance (s : Bytes) : Decidable (allDigits s) := by
  unfold allDigits
  infer_instance

/-- The byte is a decimal digit `0`..`9`. -/
def isDigitByte (c : Nat) : Bool := decide (48 ≤ c ∧ c ≤ 57)

/-- The input without its leading sign byte `+` or `-`, if it has one. -/
def unsignedPart : Bytes → Bytes
  | [] => []
  | c :: cs => if c = 43 ∨ c = 45 then cs else c :: cs

/-- What `Atoi` returns, worded from the outside: `neg` is a leading `-`, `ds` the longest
run of decimal digits after the optional sign and `v` its value. Nothing after the optional
sign is a syntax error; digits whose value does not fit 64 bits are a range error, whatever
follows them; otherwise a byte after the digits is a syntax error; otherwise the result is
the signed value when it fits `int` and a range error when it does not. A range error
carries the bound of `int` of the sign of the input, a syntax error carries 0. -/
def atoiOutcome (s : Bytes) : Int × Option NumError :=
  let neg := decide (s.head? = some 45)
  let bound : Int := if neg then -9223372036854775808 else 9223372036854775807
  let body := unsignedPart s
  let ds := body.takeWhile isDigitByte
  let rest := body.dropWhile isDigitByte
  let v := decimalFrom 0 ds
  if body = [] then (0, some NumError.ErrSyntax)
  else if 18446744073709551616 ≤ v then (bound, some NumError.ErrRange)
  else if rest ≠ [] then (0, some NumError.ErrSyntax)
  else if neg then
    (if v ≤ 9223372036854775808 then (-((v : Nat) : Int), none)
      else (bound, some NumError.ErrRange))
  else
    (if v < 9223372036854775808 then (((v : Nat) : Int), none)
      else (bound, some NumError.ErrRange))

/-! ## Auxiliary lemmas -/

theorem extractProductsForRows_loop_ok (productRows products : List Product) :
    ProductRepository.extractProductsForRows.loop (productRows.map Except.ok) products
      = products ++ productRows := by
  induction productRows generalizing products with
  | nil => simp [ProductRepository.extractProductsForRows.loop]
  | cons r rest ih =>
    rw [List.map_cons, ProductRepository.extractProductsForRows.loop, ih]
    simp

theorem extractProductsForRows_eq (productRows : List Product) :
    ProductRepository.extractProductsForRows (productRows.map Except.ok) = productRows := by
  unfold ProductRepository.extractProductsForRows
  rw [extractProductsForRows_loop_ok]
  rfl

theorem parse_selectAll : parseStmt "SELECT * FROM products" = some Stmt.selectAll := by
  decide

theorem parse_selectByStore :
    parseStmt "SELECT * FROM products WHERE store = $1" = some (Stmt.selectByStore 1) := by
  decide

theorem parse_selectById :
    parseStmt "SELECT * FROM products WHERE id = $1" = some (Stmt.selectById 1) := by
  decide

theorem parse_insert :
    parseStmt "INSERT INTO products (name, price, discount, store) VALUES ($1, $2, $3, $4)"
      = some (Stmt.insert 1 2 3 4) := by
  decide

theorem parse_deleteById :
    parseStmt "DELETE FROM products WHERE id = $1" = some (Stmt.deleteById 1) := by
  decide

theorem send_fault (pool : Pool) (sql : String) (args : List Arg) (e : String)
    (h : pool.nextFault = some e) :
    pool.send sql args = (Except.error e, pool.logged sql args) := by
  simp [Pool.send, h, Pool.logged]

theorem send_ok (pool : Pool) (sql : String) (args : List Arg) (st : Stmt)
    (h : pool.nextFault = none) (hp : parseStmt sql = some st) :
    pool.send sql args
      = ((execStmt pool.table st args).1,
          ⟨(execStmt pool.table st args).2, pool.faults.tail, pool.log ++ [(sql, args)]⟩) := by
  simp [Pool.send, h, hp]

theorem send_reject (pool : Pool) (sql : String) (args : List Arg)
    (h : pool.nextFault = none) (hp : parseStmt sql = none) :
    pool.send sql args = (Except.error "syntax error", pool.logged sql args) := by
  simp [Pool.send, h, hp, Pool.logged]

theorem exec_selectById (t : Table) (i : Int) :
    execStmt t (Stmt.selectById 1) [Arg.bigint i]
      = (Except.ok (t.rows.filter (fun r => decide (r.Id = i))), t) := by
  simp [execStmt, Stmt.arity, argAt]

theorem GetProductById_fault (pool : Pool) (id : Int) (e : String)
    (h : pool.nextFault = some e) :
    ProductRepository.GetProductById pool id
      = ((Product.zero, some (if e = NOT_FOUND then notFoundMsg id else readFailedMsg id)),
          pool.logged getByIdSql [Arg.bigint id]) := by
  unfold ProductRepository.GetProductById Pool.QueryRow
  simp only [send_fault pool _ _ e h]
  split <;> simp_all [notFoundMsg, readFailedMsg, getByIdSql]

theorem GetProductById_ok (pool : Pool) (id : Int) (h : pool.nextFault = none) :
    ProductRepository.GetProductById pool id
      = (match pool.table.rows.filter (fun r => decide (r.Id = id)) with
          | [] => (Product.zero, some (notFoundMsg id))
          | r :: _ => (r, none),
          pool.logged getByIdSql [Arg.bigint id]) := by
  unfold ProductRepository.GetProductById Pool.QueryRow
  simp only [send_ok pool _ _ _ h parse_selectById, exec_selectById]
  cases hf : pool.table.rows.filter (fun r => decide (r.Id = id)) with
  | nil => simp [ErrNoRows, NOT_FOUND, notFoundMsg, Pool.logged, getByIdSql]
  | cons r rs => simp [Pool.logged, getByIdSql]

theorem checkProductExists_eq (pool : Pool) (id : Int) :
    ProductRepository.checkProductExists pool id
      = (if (ProductRepository.GetProductById pool id).1.2 = none then none
          else some (notFoundMsg id),
          (ProductRepository.GetProductById pool id).2) := by
  unfold ProductRepository.checkProductExists
  split <;> rename_i h <;> simp [h, notFoundMsg]

theorem GetProductById_table (pool : Pool) (id : Int) :
    (ProductRepository.GetProductById pool id).2 = pool.logged getByIdSql [Arg.bigint id] := by
  cases h : pool.nextFault with
  | none => rw [GetProductById_ok pool id h]
  | some e => rw [GetProductById_fault pool id e h]

theorem filter_id_nil (rows : List Product) (id : Int) (h : ∀ r ∈ rows, r.Id ≠ id) :
    rows.filter (fun r => decide (r.Id = id)) = [] := by
  rw [List.filter_eq_nil_iff]
  intro r hr
  simpa using h r hr

theorem GetProductById_absent (pool : Pool) (id : Int)
    (h : ∀ r ∈ pool.table.rows, r.Id ≠ id) :
    (ProductRepository.GetProductById pool id).1.2 ≠ none := by
  cases hf : pool.nextFault with
  | none => rw [GetProductById_ok pool id hf, filter_id_nil _ _ h]; simp
  | some e => rw [GetProductById_fault pool id e hf]; simp

theorem DeleteProductById_error (pool : Pool) (id : Int)
    (h : (ProductRepository.GetProductById pool id).1.2 ≠ none) :
    ProductRepository.DeleteProductById pool id
      = (some (notFoundMsg id), pool.logged getByIdSql [Arg.bigint id]) := by
  unfold ProductRepository.DeleteProductById
  rw [checkProductExists_eq, GetProductById_table]
  simp [h]

theorem DeleteProductById_checked (pool : Pool) (id : Int)
    (h : (ProductRepository.GetProductById pool id).1.2 = none) :
    ProductRepository.DeleteProductById pool id
      = (match (pool.logged getByIdSql [Arg.bigint id]).Exec deleteSql [Arg.bigint id] with
          | (some _, pool2) => (some ("Error while deleting product with id " ++ sprintD id), pool2)
          | (none, pool2) => (none, pool2)) := by
  unfold ProductRepository.DeleteProductById
  rw [checkProductExists_eq, GetProductById_table]
  simp [h, deleteSql]

theorem exec_deleteById (t : Table) (i : Int) :
    execStmt t (Stmt.deleteById 1) [Arg.bigint i]
      = (Except.ok [], ⟨t.rows.filter (fun r => !decide (r.Id = i)), t.nextId⟩) := by
  simp [execStmt, Stmt.arity, argAt]

theorem send_log (pool : Pool) (sql : String) (args : List Arg) :
    (pool.send sql args).2.log = pool.log ++ [(sql, args)] := by
  unfold Pool.send
  split
  · rfl
  · split <;> rfl

theorem Exec_snd (pool : Pool) (sql : String) (args : List Arg) :
    (pool.Exec sql args).2 = (pool.send sql args).2 := by
  unfold Pool.Exec
  split <;> rename_i h <;> simp [h]

theorem Exec_delete_ok (pool : Pool) (id : Int) (h : pool.nextFault = none) :
    pool.Exec deleteSql [Arg.bigint id]
      = (none, ⟨⟨pool.table.rows.filter (fun r => !decide (r.Id = id)), pool.table.nextId⟩,
          pool.faults.tail, pool.log ++ [(deleteSql, [Arg.bigint id])]⟩) := by
  unfold Pool.Exec
  rw [send_ok pool deleteSql _ _ h parse_deleteById, exec_deleteById]

theorem filter_id_ne_self (rows : List Product) (id : Int) (h : ∀ r ∈ rows, r.Id ≠ id) :
    rows.filter (fun r => !decide (r.Id = id)) = rows := by
  rw [List.filter_eq_self]
  intro r hr
  simpa using h r hr

theorem filter_id_of_filter_ne (rows : List Product) (id : Int) :
    (rows.filter (fun r => !decide (r.Id = id))).filter (fun r => decide (r.Id = id)) = [] := by
  rw [List.filter_eq_nil_iff]
  intro r hr
  have := (List.mem_filter.mp hr).2
  simpa using this

/-- On a pool without planned faults `DeleteProductById` leaves exactly the rows with another
identifier, whether or not the identifier was present. -/
theorem DeleteProductById_healthy (t : Table) (log : List (String × List Arg)) (id : Int) :
    (ProductRepository.DeleteProductById ⟨t, [], log⟩ id).2.table.rows
        = t.rows.filter (fun r => !decide (r.Id = id))
    ∧ (ProductRepository.DeleteProductById ⟨t, [], log⟩ id).2.faults = [] := by
  by_cases hAbs : ∀ r ∈ t.rows, r.Id ≠ id
  · rw [DeleteProductById_error _ id (GetProductById_absent _ id hAbs)]
    simp [Pool.logged, filter_id_ne_self _ _ hAbs]
  · have hGet : (ProductRepository.GetProductById ⟨t, [], log⟩ id).1.2 = none := by
      rw [GetProductById_ok ⟨t, [], log⟩ id rfl]
      cases hf : t.rows.filter (fun r => decide (r.Id = id)) with
      | nil =>
        exfalso
        apply hAbs
        intro r hr hEq
        have : r ∈ t.rows.filter (fun r => decide (r.Id = id)) :=
          List.mem_filter.mpr ⟨hr, by simpa using hEq⟩
        rw [hf] at this
        exact absurd this (List.not_mem_nil r)
      | cons r rs => simp [hf]
    rw [DeleteProductById_checked _ id hGet, Exec_delete_ok (Pool.logged ⟨t, [], log⟩ getByIdSql [Arg.bigint id]) id rfl]
    simp [Pool.logged]

theorem updateStatement_text (u : Product)
    (hAny : u.Name ≠ "" ∨ u.Price.ne0 = true ∨ u.Discount.ne0 = true ∨ u.Store ≠ "") :
    (ProductRepository.updateStatement u).1
      = updateText (decide (u.Name ≠ "")) u.Price.ne0 u.Discount.ne0 (decide (u.Store ≠ "")) := by
  by_cases hN : u.Name = "" <;> cases hP : u.Price.ne0 <;> cases hD : u.Discount.ne0
    <;> by_cases hS : u.Store = ""
    <;> simp [hN, hP, hD, hS] at hAny
    <;> simp only [ProductRepository.updateStatement, hN, hP, hD, hS, ne_eq, not_true_eq_false,
      not_false_eq_true, if_true, if_false, decide_True, decide_False, Bool.false_eq_true]
    <;> decide

theorem parse_updateText (n p d s : Bool) (h : (n || p || d || s) = true) :
    parseStmt (updateText n p d s)
      = some (Stmt.update (numberCols (colsOf n p d s) 1) ((colsOf n p d s).length + 1)) := by
  revert h
  cases n <;> cases p <;> cases d <;> cases s <;> decide

theorem parse_updateText_none : parseStmt "UPDATE products SET WHERE id = $1" = none := by
  decide

theorem updateStatement_none (u : Product)
    (hN : u.Name = "") (hP : u.Price.ne0 = false) (hD : u.Discount.ne0 = false)
    (hS : u.Store = "") :
    ProductRepository.updateStatement u
      = ("UPDATE products SET WHERE id = $1", [Arg.bigint u.Id]) := by
  simp only [ProductRepository.updateStatement, hN, hP, hD, hS, ne_eq, not_true_eq_false,
      if_false, Bool.false_eq_true]
  refine Prod.ext ?_ ?_
  · show ProductRepository.dropLastByte "UPDATE products SET " ++ (" WHERE id = $" ++ sprintD 1)
      = "UPDATE products SET WHERE id = $1"
    decide
  · rfl

theorem exec_update (t : Table) (u : Product)
    (hAny : u.Name ≠ "" ∨ u.Price.ne0 = true ∨ u.Discount.ne0 = true ∨ u.Store ≠ "") :
    execStmt t
        (Stmt.update
          (numberCols
            (colsOf (decide (u.Name ≠ "")) u.Price.ne0 u.Discount.ne0 (decide (u.Store ≠ ""))) 1)
          ((colsOf (decide (u.Name ≠ "")) u.Price.ne0 u.Discount.ne0
            (decide (u.Store ≠ ""))).length + 1))
        (ProductRepository.updateStatement u).2
      = (Except.ok [],
          ⟨t.rows.map (fun r => if r.Id = u.Id then mergeUpdate r u else r), t.nextId⟩) := by
  by_cases hN : u.Name = "" <;> cases hP : u.Price.ne0 <;> cases hD : u.Discount.ne0
    <;> by_cases hS : u.Store = ""
    <;> simp [hN, hP, hD, hS] at hAny
    <;> simp [ProductRepository.updateStatement, hN, hP, hD, hS, colsOf, numberCols, execStmt,
      Stmt.arity, argAt, applySets, applySet, mergeUpdate, Product.zero]

theorem Exec_update_ok (pool : Pool) (u : Product) (hOk : pool.nextFault = none)
    (hAny : u.Name ≠ "" ∨ u.Price.ne0 = true ∨ u.Discount.ne0 = true ∨ u.Store ≠ "") :
    pool.Exec (ProductRepository.updateStatement u).1 (ProductRepository.updateStatement u).2
      = (none,
          ⟨⟨pool.table.rows.map (fun r => if r.Id = u.Id then mergeUpdate r u else r),
              pool.table.nextId⟩,
            pool.faults.tail,
            pool.log ++ [ProductRepository.updateStatement u]⟩) := by
  have hParse := parse_updateText (decide (u.Name ≠ "")) u.Price.ne0 u.Discount.ne0
    (decide (u.Store ≠ "")) (by
      rcases hAny with h | h | h | h <;> simp [h])
  rw [← updateStatement_text u hAny] at hParse
  unfold Pool.Exec
  rw [send_ok pool _ _ _ hOk hParse, exec_update pool.table u hAny]

theorem GetProductById_present (pool : Pool) (id : Int) (hOk : pool.nextFault = none)
    (hRow : ∃ r ∈ pool.table.rows, r.Id = id) :
    (ProductRepository.GetProductById pool id).1.2 = none := by
  rw [GetProductById_ok pool id hOk]
  cases hf : pool.table.rows.filter (fun r => decide (r.Id = id)) with
  | nil =>
    obtain ⟨r, hr, hEq⟩ := hRow
    have : r ∈ pool.table.rows.filter (fun r => decide (r.Id = id)) :=
      List.mem_filter.mpr ⟨hr, by simpa using hEq⟩
    rw [hf] at this
    exact absurd this (List.not_mem_nil r)
  | cons r rs => rfl

theorem UpdateProduct_error (pool : Pool) (u : Product)
    (h : (ProductRepository.GetProductById pool u.Id).1.2 ≠ none) :
    ProductRepository.UpdateProduct pool u
      = (some (notFoundMsg u.Id), pool.logged getByIdSql [Arg.bigint u.Id]) := by
  unfold ProductRepository.UpdateProduct
  rw [checkProductExists_eq, GetProductById_table]
  simp [h]

theorem UpdateProduct_checked (pool : Pool) (u : Product)
    (h : (ProductRepository.GetProductById pool u.Id).1.2 = none) :
    ProductRepository.UpdateProduct pool u
      = (match (pool.logged getByIdSql [Arg.bigint u.Id]).Exec
            (ProductRepository.updateStatement u).1 (ProductRepository.updateStatement u).2 with
          | (some _, pool2) =>
            (some ("Error while updating product with id " ++ sprintD u.Id), pool2)
          | (none, pool2) => (none, pool2)) := by
  unfold ProductRepository.UpdateProduct
  rw [checkProductExists_eq, GetProductById_table]
  simp [h]

theorem Exec_fault (pool : Pool) (sql : String) (args : List Arg) (e : String)
    (h : pool.nextFault = some e) :
    pool.Exec sql args = (some e, pool.logged sql args) := by
  unfold Pool.Exec
  rw [send_fault pool sql args e h]

theorem Exec_reject (pool : Pool) (sql : String) (args : List Arg)
    (h : pool.nextFault = none) (hp : parseStmt sql = none) :
    pool.Exec sql args = (some "syntax error", pool.logged sql args) := by
  unfold Pool.Exec
  rw [send_reject pool sql args h hp]

theorem exec_insert (t : Table) (r : Product) :
    execStmt t (Stmt.insert 1 2 3 4)
        [Arg.text r.Name, Arg.real r.Price, Arg.real r.Discount, Arg.text r.Store]
      = (if t.rows.any (fun x => decide (x.Id = t.nextId)) then
          (Except.error "duplicate key value violates unique constraint",
            ⟨t.rows, t.nextId + 1⟩)
        else
          (Except.ok [],
            ⟨t.rows ++ [⟨t.nextId, r.Name, r.Price, r.Discount, r.Store⟩], t.nextId + 1⟩)) := by
  simp [execStmt, Stmt.arity, argAt]

theorem AddProduct_fault (pool : Pool) (r : Product) (e : String)
    (h : pool.nextFault = some e) :
    (ProductRepository.AddProduct pool r).1 = some e := by
  unfold ProductRepository.AddProduct
  simp only [Exec_fault pool _ _ e h]

theorem AddProduct_ok (pool : Pool) (r : Product) (h : pool.nextFault = none) :
    ProductRepository.AddProduct pool r
      = (if pool.table.rows.any (fun x => decide (x.Id = pool.table.nextId)) then
          (some "duplicate key value violates unique constraint",
            ⟨⟨pool.table.rows, pool.table.nextId + 1⟩, pool.faults.tail,
              pool.log ++ [(insertSql,
                [Arg.text r.Name, Arg.real r.Price, Arg.real r.Discount, Arg.text r.Store])]⟩)
        else
          (none,
            ⟨⟨pool.table.rows
                ++ [⟨pool.table.nextId, r.Name, r.Price, r.Discount, r.Store⟩],
                pool.table.nextId + 1⟩, pool.faults.tail,
              pool.log ++ [(insertSql,
                [Arg.text r.Name, Arg.real r.Price, Arg.real r.Discount, Arg.text r.Store])]⟩)) := by
  unfold ProductRepository.AddProduct Pool.Exec
  simp only [send_ok pool _ _ _ h parse_insert, exec_insert]
  by_cases hDup : pool.table.rows.any (fun x => decide (x.Id = pool.table.nextId)) = true
  · simp only [hDup, if_true, insertSql]
  · simp only [hDup, if_false, insertSql, Bool.false_eq_true]

theorem filter_id_append_new (rows : List Product) (new : Product)
    (h : ∀ x ∈ rows, x.Id ≠ new.Id) :
    (rows ++ [new]).filter (fun r => decide (r.Id = new.Id)) = [new] := by
  rw [List.filter_append, filter_id_nil rows new.Id h]
  simp

theorem Exec_log (pool : Pool) (sql : String) (args : List Arg) :
    (pool.Exec sql args).2.log = pool.log ++ [(sql, args)] := by
  rw [Exec_snd, send_log]

theorem GetProductById_error_cases (pool : Pool) (id : Int) :
    (ProductRepository.GetProductById pool id).1.2 = none
      ∨ (ProductRepository.GetProductById pool id).1.2 = some (notFoundMsg id)
      ∨ (ProductRepository.GetProductById pool id).1.2 = some (readFailedMsg id) := by
  cases hf : pool.nextFault with
  | some e =>
    rw [GetProductById_fault pool id e hf]
    by_cases he : e = NOT_FOUND <;> simp [he]
  | none =>
    rw [GetProductById_ok pool id hf]
    cases pool.table.rows.filter (fun r => decide (r.Id = id)) <;> simp

theorem Atoi_loop_error (s : Bytes) (n : Int) (e : NumError)
    (h : (Atoi.loop s n).2 = some e) : e = NumError.ErrSyntax := by
  induction s generalizing n with
  | nil => simp [Atoi.loop] at h
  | cons c cs ih =>
    unfold Atoi.loop at h
    simp only at h
    split at h
    · simp at h; exact h.symm
    · exact ih _ h

theorem ParseInt_syntax (s : Bytes) (h : (ParseInt s).2 = some NumError.ErrSyntax) :
    (ParseInt s).1 = 0 := by
  unfold ParseInt at h ⊢
  split
  · rfl
  · simp only at h ⊢
    split_ifs at h ⊢ <;> simp_all

theorem Atoi_syntax (s : Bytes) (h : (Atoi s).2 = some NumError.ErrSyntax) :
    (Atoi s).1 = 0 := by
  unfold Atoi at h ⊢
  split
  · exact ParseInt_syntax _ h
  · simp only at h ⊢
    split_ifs at h ⊢
    · rfl
    · split <;> simp_all
    · split <;> simp_all
    · rfl
    · split <;> simp_all
    · split <;> simp_all
    · exact ParseInt_syntax _ h

theorem Atoi_fast_not_range (r : Int × Option NumError) (v : Int)
    (hr : ∀ e, r.2 = some e → e = NumError.ErrSyntax)
    (h : (match r.2 with
          | some e => ((0 : Int), some e)
          | none => (v, none)).2 = some NumError.ErrRange) : False := by
  cases hr2 : r.2 with
  | none => simp [hr2] at h
  | some e =>
    have := hr e hr2
    simp [hr2, this] at h

theorem fake_update_ids (products : List Product) (product : Product) :
    (FakeProductRepository.UpdateProduct products product).map (fun p => p.Id)
      = products.map (fun p => p.Id) := by
  induction products with
  | nil => rfl
  | cons p rest ih =>
    unfold FakeProductRepository.UpdateProduct
    by_cases h : p.Id = product.Id
    · simp [h]
    · simp [h, ih]

theorem fake_delete_sublist (products : List Product) (productId : Int) :
    (FakeProductRepository.DeleteProductById products productId).Sublist products := by
  induction products with
  | nil => exact List.Sublist.refl _
  | cons p rest ih =>
    unfold FakeProductRepository.DeleteProductById
    by_cases h : p.Id = productId
    · simp [h]
    · simp [h, ih]

theorem fake_update_distinct (products : List Product) (product : Product)
    (h : FakeProductRepository.distinctIds products) :
    FakeProductRepository.distinctIds
      (FakeProductRepository.UpdateProduct products product) := by
  unfold FakeProductRepository.distinctIds at *
  rw [fake_update_ids]
  exact h

theorem fake_delete_distinct (products : List Product) (productId : Int)
    (h : FakeProductRepository.distinctIds products) :
    FakeProductRepository.distinctIds
      (FakeProductRepository.DeleteProductById products productId) := by
  unfold FakeProductRepository.distinctIds at *
  exact h.sublist ((fake_delete_sublist products productId).map _)

theorem fake_add_distinct_iff (products : List Product) (product : Product)
    (h : FakeProductRepository.distinctIds products) :
    FakeProductRepository.distinctIds (FakeProductRepository.AddProduct products product)
      ↔ ∀ x ∈ products, x.Id ≠ (products.length : Int) + 1 := by
  unfold FakeProductRepository.distinctIds at *
  unfold FakeProductRepository.AddProduct
  rw [List.map_append, List.nodup_append]
  simp only [List.map_cons, List.map_nil, List.nodup_singleton, true_and, h]
  constructor
  · intro hd x hx hEq
    exact hd (List.mem_map.mpr ⟨x, hx, hEq⟩) (List.mem_singleton.mpr rfl)
  · intro hf a ha hb
    obtain ⟨x, hx, hEq⟩ := List.mem_map.mp ha
    rw [List.mem_singleton] at hb
    exact hf x hx (hEq.trans hb)

theorem le_decimalFrom (s : Bytes) (n : Nat) : n ≤ decimalFrom n s := by
  induction s generalizing n with
  | nil => exact Nat.le_refl n
  | cons c cs ih =>
    have h := ih (10 * n + (c - 48))
    unfold decimalFrom at h ⊢
    rw [List.foldl_cons]
    omega

theorem decimalFrom_lt (s : Bytes) (n : Nat) (hs : allDigits s) :
    decimalFrom n s < (n + 1) * 10 ^ s.length := by
  induction s generalizing n with
  | nil => simp [decimalFrom]
  | cons c cs ih =>
    have hc := hs c (List.mem_cons_self c cs)
    have h := ih (10 * n + (c - 48)) (fun x hx => hs x (List.mem_cons_of_mem c hx))
    have hstep : decimalFrom n (c :: cs) = decimalFrom (10 * n + (c - 48)) cs := rfl
    rw [hstep, List.length_cons, pow_succ]
    calc decimalFrom (10 * n + (c - 48)) cs
        < (10 * n + (c - 48) + 1) * 10 ^ cs.length := h
      _ ≤ ((n + 1) * 10) * 10 ^ cs.length := by
          apply Nat.mul_le_mul_right
          omega
      _ = (n + 1) * (10 ^ cs.length * 10) := by ring

theorem ParseUint_loop_digits (s : Bytes) (n : Nat) (hs : allDigits s)
    (hn : n < 18446744073709551616) :
    ParseUint.loop s n
      = if decimalFrom n s < 18446744073709551616 then (decimalFrom n s, none)
        else (18446744073709551615, some NumError.ErrRange) := by
  induction s generalizing n with
  | nil => simp [ParseUint.loop, decimalFrom, hn]
  | cons c cs ih =>
    have hc := hs c (List.mem_cons_self c cs)
    have hcs : allDigits cs := fun x hx => hs x (List.mem_cons_of_mem c hx)
    have hstep : decimalFrom n (c :: cs) = decimalFrom (10 * n + (c - 48)) cs := rfl
    have hle := le_decimalFrom cs (10 * n + (c - 48))
    rw [hstep]
    unfold ParseUint.loop
    simp only [hc, and_self, if_true, intSize]
    norm_num
    by_cases hcut : 1844674407370955162 ≤ n
    · rw [if_pos hcut, if_neg (by omega)]
    · rw [if_neg hcut]
      have h10 : n * 10 % 18446744073709551616 = n * 10 := Nat.mod_eq_of_lt (by omega)
      rw [h10]
      by_cases hov : n * 10 + (c - 48) < 18446744073709551616
      · have h1 : (n * 10 + (c - 48)) % 18446744073709551616 = n * 10 + (c - 48) :=
          Nat.mod_eq_of_lt hov
        rw [h1, if_neg (by omega), ih (n * 10 + (c - 48)) hcs hov]
        have : n * 10 + (c - 48) = 10 * n + (c - 48) := by ring
        rw [this]
      · rw [if_pos (by omega), if_neg (by omega)]

theorem Atoi_loop_digits (s : Bytes) (n : Nat) (hs : allDigits s) :
    Atoi.loop s (n : Int) = (((decimalFrom n s : Nat) : Int), none) := by
  induction s generalizing n with
  | nil => rfl
  | cons c cs ih =>
    have hc := hs c (List.mem_cons_self c cs)
    have hcs : allDigits cs := fun x hx => hs x (List.mem_cons_of_mem c hx)
    have hstep : decimalFrom n (c :: cs) = decimalFrom (10 * n + (c - 48)) cs := rfl
    have hch : (c % 256 + 256 - 48) % 256 = c - 48 := by omega
    unfold Atoi.loop
    simp only [hch]
    rw [if_neg (by omega), hstep, ← ih (10 * n + (c - 48)) hcs]
    congr 1
    push_cast
    ring

theorem decimalFrom_lt_of_short (s : Bytes) (hs : allDigits s) (hlen : s.length < 19) :
    decimalFrom 0 s < 1000000000000000000 := by
  have h := decimalFrom_lt s 0 hs
  have hp : 10 ^ s.length ≤ 10 ^ 18 := Nat.pow_le_pow_right (by decide) (by omega)
  have h18 : (10 : Nat) ^ 18 = 1000000000000000000 := by norm_num
  omega

theorem ParseUint_digits (s : Bytes) (hne : s ≠ []) (hs : allDigits s) :
    ParseUint s
      = if decimalFrom 0 s < 18446744073709551616 then (decimalFrom 0 s, none)
        else (18446744073709551615, some NumError.ErrRange) := by
  unfold ParseUint
  rw [if_neg hne, ParseUint_loop_digits s 0 hs (by decide)]

/-- `Atoi` on a non-empty string of decimal digits: its value when it fits `int`, otherwise
a range error with the largest `int`. -/
theorem Atoi_digits (s : Bytes) (hne : s ≠ []) (hs : allDigits s) :
    Atoi s
      = if decimalFrom 0 s < 9223372036854775808 then (((decimalFrom 0 s : Nat) : Int), none)
        else (9223372036854775807, some NumError.ErrRange) := by
  cases s with
  | nil => exact absurd rfl hne
  | cons c cs =>
    have hc := hs c (List.mem_cons_self c cs)
    have hneg : ¬ c = 45 := by omega
    have hpos : ¬ c = 43 := by omega
    unfold Atoi
    by_cases hlen : (c :: cs).length < 19
    · have hv := decimalFrom_lt_of_short _ hs hlen
      have hloop := Atoi_loop_digits (c :: cs) 0 hs
      simp only [Nat.cast_zero] at hloop
      simp only [hlen, if_true, hneg, hpos, or_self, if_false, hloop]
      rw [if_neg (by simp), if_pos (by omega)]
    · simp only [hlen, if_false]
      unfold ParseInt
      simp only [hneg, hpos, or_self, if_false, decide_False, ParseUint_digits (c :: cs) hne hs,
        intSize]
      by_cases h64 : decimalFrom 0 (c :: cs) < 18446744073709551616
      · by_cases h63 : decimalFrom 0 (c :: cs) < 9223372036854775808
        · have hnot : ¬ 9223372036854775808 ≤ decimalFrom 0 (c :: cs) := by omega
          simp only [h64, h63, if_true]
          simp [hnot, int64OfUint64, Nat.mod_eq_of_lt h64, h63]
        · have hge : 9223372036854775808 ≤ decimalFrom 0 (c :: cs) := by omega
          simp only [h64, h63, if_true, if_false]
          simp [hge]
      · have h63 : ¬ decimalFrom 0 (c :: cs) < 9223372036854775808 := by omega
        simp only [h64, h63, if_false]
        simp

/-- `Atoi` on `-` followed by a non-empty string of decimal digits: the negated value when
it fits `int`, otherwise a range error with the smallest `int`. -/
theorem Atoi_minus_digits (s : Bytes) (hne : s ≠ []) (hs : allDigits s) :
    Atoi (45 :: s)
      = if decimalFrom 0 s ≤ 9223372036854775808 then (-((decimalFrom 0 s : Nat) : Int), none)
        else (-9223372036854775808, some NumError.ErrRange) := by
  have hlen1 : ¬ s.length < 1 := by
    cases s with
    | nil => exact absurd rfl hne
    | cons c cs => simp
  unfold Atoi
  by_cases hlen : (45 :: s).length < 19
  · have hv := decimalFrom_lt_of_short s hs (by simp at hlen ⊢; omega)
    have hloop := Atoi_loop_digits s 0 hs
    simp only [Nat.cast_zero] at hloop
    simp only [hlen, if_true, true_or, hlen1, if_false, hloop]
    rw [if_pos (by omega)]
  · simp only [hlen, if_false]
    unfold ParseInt
    simp only [or_true, if_true, decide_True, ParseUint_digits s hne hs, intSize]
    by_cases h64 : decimalFrom 0 s < 18446744073709551616
    · by_cases h63 : decimalFrom 0 s ≤ 9223372036854775808
      · have hnot : ¬ 9223372036854775808 < decimalFrom 0 s := by omega
        simp only [h64, h63, if_true]
        by_cases heq : decimalFrom 0 s = 9223372036854775808
        · simp [heq, int64OfUint64, negInt64]
        · have hlt : decimalFrom 0 s < 9223372036854775808 := by omega
          have hneq : ¬ ((decimalFrom 0 s : Nat) : Int) = -9223372036854775808 := by omega
          simp [hnot, int64OfUint64, negInt64, Nat.mod_eq_of_lt h64, hlt, hneq]
      · have hgt : 9223372036854775808 < decimalFrom 0 s := by omega
        simp only [h64, h63, if_true, if_false]
        simp [hgt]
    · have h63 : ¬ decimalFrom 0 s ≤ 9223372036854775808 := by omega
      simp only [h64, h63, if_false]
      simp
theorem ParseInt_range_sign (s : Bytes) (h : (ParseInt s).2 = some NumError.ErrRange) :
    (ParseInt s).1
      = if s.head? = some 45 then -9223372036854775808 else 9223372036854775807 := by
  unfold ParseInt at h ⊢
  split
  · simp at h
  · simp only at h ⊢
    split_ifs at h ⊢ <;> simp_all [intSize]

theorem Atoi_slow (c : Nat) (cs : Bytes) (hlen : ¬ (c :: cs).length < 19) :
    Atoi (c :: cs) = ParseInt (c :: cs) := by
  unfold Atoi
  simp only [hlen, if_false]

theorem Atoi_fast_no_range (c : Nat) (cs : Bytes) (hlen : (c :: cs).length < 19) :
    (Atoi (c :: cs)).2 ≠ some NumError.ErrRange := by
  intro h
  unfold Atoi at h
  simp only [hlen, if_true] at h
  split_ifs at h
  · simp at h
  · exact Atoi_fast_not_range _ _ (fun e he => Atoi_loop_error _ _ e he) h
  · exact Atoi_fast_not_range _ _ (fun e he => Atoi_loop_error _ _ e he) h
  · simp at h
  · exact Atoi_fast_not_range _ _ (fun e he => Atoi_loop_error _ _ e he) h
  · exact Atoi_fast_not_range _ _ (fun e he => Atoi_loop_error _ _ e he) h

theorem Atoi_range_sign (s : Bytes) (h : (Atoi s).2 = some NumError.ErrRange) :
    (Atoi s).1
      = if s.head? = some 45 then -9223372036854775808 else 9223372036854775807 := by
  cases s with
  | nil => exact ParseInt_range_sign [] h
  | cons c cs =>
    by_cases hlen : (c :: cs).length < 19
    · exact absurd h (Atoi_fast_no_range c cs hlen)
    · rw [Atoi_slow c cs hlen] at h ⊢
      exact ParseInt_range_sign _ h

theorem allDigits_takeWhile (cs : Bytes) : allDigits (cs.takeWhile isDigitByte) := by
  intro c hc
  have := List.mem_takeWhile_imp hc
  simpa [isDigitByte] using this

theorem ParseUint_loop_outcome (cs : Bytes) (n : Nat) (hn : n < 18446744073709551616) :
    ParseUint.loop cs n
      = if 18446744073709551616 ≤ decimalFrom n (cs.takeWhile isDigitByte) then
          (18446744073709551615, some NumError.ErrRange)
        else if cs.dropWhile isDigitByte = [] then
          (decimalFrom n (cs.takeWhile isDigitByte), none)
        else (0, some NumError.ErrSyntax) := by
  induction cs generalizing n with
  | nil =>
    have hv : decimalFrom n [] = n := rfl
    simp only [ParseUint.loop, List.takeWhile_nil, List.dropWhile_nil, hv, if_true]
    rw [if_neg (by omega)]
  | cons c cs ih =>
    by_cases hc : 48 ≤ c ∧ c ≤ 57
    · have hd : isDigitByte c = true := by simp [isDigitByte, hc]
      have hstep : decimalFrom n (c :: cs.takeWhile isDigitByte)
          = decimalFrom (10 * n + (c - 48)) (cs.takeWhile isDigitByte) := rfl
      have hle := le_decimalFrom (cs.takeWhile isDigitByte) (10 * n + (c - 48))
      rw [List.takeWhile_cons_of_pos hd, List.dropWhile_cons_of_pos hd, hstep]
      unfold ParseUint.loop
      simp only [hc, and_self, if_true, intSize, ge_iff_le, gt_iff_lt, Nat.reducePow,
        Nat.reduceSub, Nat.reduceDiv, Nat.reduceAdd]
      by_cases hcut : 1844674407370955162 ≤ n
      · rw [if_pos hcut, if_pos (by omega)]
      · rw [if_neg hcut]
        have h10 : n * 10 % 18446744073709551616 = n * 10 := Nat.mod_eq_of_lt (by omega)
        rw [h10]
        by_cases hov : n * 10 + (c - 48) < 18446744073709551616
        · have h1 : (n * 10 + (c - 48)) % 18446744073709551616 = n * 10 + (c - 48) :=
            Nat.mod_eq_of_lt hov
          rw [h1, if_neg (by omega), ih (n * 10 + (c - 48)) hov]
          have : n * 10 + (c - 48) = 10 * n + (c - 48) := by ring
          rw [this]
        · rw [if_pos (by omega), if_pos (by omega)]
    · have hd : ¬ isDigitByte c = true := by simpa [isDigitByte] using hc
      rw [List.takeWhile_cons_of_neg hd, List.dropWhile_cons_of_neg hd]
      unfold ParseUint.loop
      simp only [hc, if_false]
      have hv : decimalFrom n [] = n := rfl
      rw [hv, if_neg (by omega), if_neg (by simp)]

theorem Atoi_loop_outcome (cs : Bytes) (n : Nat) (hb : ∀ c ∈ cs, c < 256) :
    Atoi.loop cs (n : Int)
      = if cs.dropWhile isDigitByte = [] then
          (((decimalFrom n (cs.takeWhile isDigitByte) : Nat) : Int), none)
        else (0, some NumError.ErrSyntax) := by
  induction cs generalizing n with
  | nil => simp [Atoi.loop, decimalFrom]
  | cons c cs ih =>
    have hc256 := hb c (List.mem_cons_self c cs)
    have hcs : ∀ x ∈ cs, x < 256 := fun x hx => hb x (List.mem_cons_of_mem c hx)
    by_cases hc : 48 ≤ c ∧ c ≤ 57
    · have hd : isDigitByte c = true := by simp [isDigitByte, hc]
      have hstep : decimalFrom n (c :: cs.takeWhile isDigitByte)
          = decimalFrom (10 * n + (c - 48)) (cs.takeWhile isDigitByte) := rfl
      have hch : (c % 256 + 256 - 48) % 256 = c - 48 := by omega
      have hcast : (n : Int) * 10 + ((c - 48 : Nat) : Int)
          = ((10 * n + (c - 48) : Nat) : Int) := by
        push_cast
        ring
      rw [List.takeWhile_cons_of_pos hd, List.dropWhile_cons_of_pos hd, hstep]
      unfold Atoi.loop
      simp only [hch]
      rw [if_neg (by omega), hcast, ih (10 * n + (c - 48)) hcs]
    · have hd : ¬ isDigitByte c = true := by simpa [isDigitByte] using hc
      have hch : (c % 256 + 256 - 48) % 256 > 9 := by omega
      rw [List.dropWhile_cons_of_neg hd, if_neg (by simp)]
      unfold Atoi.loop
      simp only [hch, if_true]

theorem ParseUint_outcome (body : Bytes) :
    ParseUint body
      = if body = [] then (0, some NumError.ErrSyntax)
        else if 18446744073709551616 ≤ decimalFrom 0 (body.takeWhile isDigitByte) then
          (18446744073709551615, some NumError.ErrRange)
        else if body.dropWhile isDigitByte = [] then
          (decimalFrom 0 (body.takeWhile isDigitByte), none)
        else (0, some NumError.ErrSyntax) := by
  unfold ParseUint
  by_cases hb : body = []
  · rw [if_pos hb, if_pos hb]
  · rw [if_neg hb, if_neg hb, ParseUint_loop_outcome body 0 (by decide)]

theorem takeWhile_value_short (body : Bytes) (hlen : body.length < 19) :
    decimalFrom 0 (body.takeWhile isDigitByte) < 1000000000000000000 := by
  apply decimalFrom_lt_of_short _ (allDigits_takeWhile body)
  have := (List.takeWhile_prefix isDigitByte (l := body)).length_le
  omega

theorem unsignedPart_bytes (s : Bytes) (hb : ∀ c ∈ s, c < 256) :
    ∀ c ∈ unsignedPart s, c < 256 := by
  cases s with
  | nil => intro c hc; simp [unsignedPart] at hc
  | cons x xs =>
    intro c hc
    simp only [unsignedPart] at hc
    split_ifs at hc
    · exact hb c (List.mem_cons_of_mem x hc)
    · exact hb c hc

theorem Atoi_fast_outcome (c : Nat) (cs : Bytes) (hb : ∀ x ∈ c :: cs, x < 256)
    (hlen : (c :: cs).length < 19) : Atoi (c :: cs) = atoiOutcome (c :: cs) := by
  have hs1 : (if c = 45 ∨ c = 43 then cs else c :: cs) = unsignedPart (c :: cs) := by
    unfold unsignedPart
    by_cases h45 : c = 45 <;> by_cases h43 : c = 43 <;> simp [h45, h43]
  have hblen : (unsignedPart (c :: cs)).length < 19 := by
    simp only [unsignedPart]
    split_ifs
    · simp at hlen ⊢; omega
    · exact hlen
  have hv := takeWhile_value_short _ hblen
  have hloop := Atoi_loop_outcome (unsignedPart (c :: cs)) 0 (unsignedPart_bytes _ hb)
  simp only [Nat.cast_zero] at hloop
  unfold Atoi atoiOutcome
  simp only [hlen, if_true, hs1, List.head?_cons, Option.some.injEq, hloop]
  generalize unsignedPart (c :: cs) = body at hv
  have h64 : ¬ 18446744073709551616 ≤ decimalFrom 0 (body.takeWhile isDigitByte) := by omega
  have h63 : decimalFrom 0 (body.takeWhile isDigitByte) < 9223372036854775808 := by omega
  have h63le : decimalFrom 0 (body.takeWhile isDigitByte) ≤ 9223372036854775808 := by omega
  by_cases hbody : body = []
  · subst hbody
    simp
  · have hl : ¬ body.length < 1 := by
      cases body with
      | nil => exact absurd rfl hbody
      | cons y ys => simp
    by_cases hrest : body.dropWhile isDigitByte = []
    · by_cases h45 : c = 45
      · simp only [hbody, hl, hrest, h45, h64, h63le, if_true, if_false, decide_True,
          ne_eq, not_true_eq_false]
      · simp only [hbody, hl, hrest, h45, h64, h63, if_true, if_false, decide_False,
          ne_eq, not_true_eq_false, Bool.false_eq_true]
    · simp only [hbody, hl, hrest, h64, if_true, if_false, ne_eq, not_false_eq_true]

theorem ParseInt_outcome (s : Bytes) : ParseInt s = atoiOutcome s := by
  cases s with
  | nil => rfl
  | cons c cs =>
    have hs1 : (if c = 43 ∨ c = 45 then cs else c :: cs) = unsignedPart (c :: cs) := rfl
    unfold ParseInt atoiOutcome
    simp only [hs1, List.head?_cons, Option.some.injEq, ParseUint_outcome, intSize]
    generalize unsignedPart (c :: cs) = body
    by_cases hbody : body = []
    · simp [hbody]
    · by_cases h64 : 18446744073709551616 ≤ decimalFrom 0 (body.takeWhile isDigitByte)
      · by_cases h45 : c = 45
        · simp [hbody, h64, h45]
        · simp [hbody, h64, h45]
      · by_cases hrest : body.dropWhile isDigitByte = []
        · have hlt : decimalFrom 0 (body.takeWhile isDigitByte) < 18446744073709551616 := by
            omega
          by_cases h45 : c = 45
          · by_cases h63 : decimalFrom 0 (body.takeWhile isDigitByte) ≤ 9223372036854775808
            · have hnot : ¬ 9223372036854775808
                  < decimalFrom 0 (body.takeWhile isDigitByte) := by omega
              by_cases heq : decimalFrom 0 (body.takeWhile isDigitByte) = 9223372036854775808
              · simp [hbody, hrest, h45, heq, int64OfUint64, negInt64]
              · have hlt63 : decimalFrom 0 (body.takeWhile isDigitByte)
                    < 9223372036854775808 := by omega
                have hneq : ¬ ((decimalFrom 0 (body.takeWhile isDigitByte) : Nat) : Int)
                    = -9223372036854775808 := by omega
                simp [hbody, h64, hrest, h45, h63, hnot, int64OfUint64, negInt64,
                  Nat.mod_eq_of_lt hlt, hlt63, hneq]
            · have hgt : 9223372036854775808
                  < decimalFrom 0 (body.takeWhile isDigitByte) := by omega
              simp [hbody, h64, hrest, h45, h63, hgt]
          · by_cases h63 : decimalFrom 0 (body.takeWhile isDigitByte) < 9223372036854775808
            · have hnot : ¬ 9223372036854775808
                  ≤ decimalFrom 0 (body.takeWhile isDigitByte) := by omega
              simp [hbody, h64, hrest, h45, h63, hnot, int64OfUint64, Nat.mod_eq_of_lt hlt]
            · have hge : 9223372036854775808
                  ≤ decimalFrom 0 (body.takeWhile isDigitByte) := by omega
              simp [hbody, h64, hrest, h45, h63, hge]
        · simp [hbody, h64, hrest]

/-- `Atoi` returns what `atoiOutcome` words, on every string of bytes. -/
theorem Atoi_outcome (s : Bytes) (hb : ∀ c ∈ s, c < 256) : Atoi s = atoiOutcome s := by
  cases s with
  | nil => rfl
  | cons c cs =>
    by_cases hlen : (c :: cs).length < 19
    · exact Atoi_fast_outcome c cs hb hlen
    · rw [Atoi_slow c cs hlen]
      exact ParseInt_outcome _


/-! ## The claims -/

/-- C1: for every pool and every identifier that no stored row has, `GetProductById` (when
the store executes its statement) returns the zero product with the error
"Product with id <id> not found", and `DeleteProductById` returns the same error, leaves the
table as it was and sends only the existence query, no `DELETE`. -/
theorem C1_absent_identifier_not_found (pool : Pool) (id : Int)
    (hAbsent : ∀ r ∈ pool.table.rows, r.Id ≠ id) :
    (pool.nextFault = none →
      (ProductRepository.GetProductById pool id).1
        = (Product.zero, some ("Product with id " ++ sprintD id ++ " not found")))
    ∧ (ProductRepository.DeleteProductById pool id).1
        = some ("Product with id " ++ sprintD id ++ " not found")
    ∧ (ProductRepository.DeleteProductById pool id).2.table = pool.table
    ∧ (ProductRepository.DeleteProductById pool id).2.log
        = pool.log ++ [("SELECT * FROM products WHERE id = $1", [Arg.bigint id])] := by
  refine ⟨?_, ?_⟩
  · intro hOk
    rw [GetProductById_ok pool id hOk, filter_id_nil _ _ hAbsent]
    rfl
  · rw [DeleteProductById_error pool id (GetProductById_absent pool id hAbsent)]
    exact ⟨rfl, rfl, rfl⟩

/-- Witness of C1: identifier 5 on the seeded table, as in `TestGetProductById`. -/
theorem C1_absent_identifier_not_found_witness :
    (∀ r ∈ (Pool.healthy seedTable).table.rows, r.Id ≠ 5)
    ∧ (Pool.healthy seedTable).nextFault = none
    ∧ (ProductRepository.GetProductById (Pool.healthy seedTable) 5).1
        = (Product.zero, some "Product with id 5 not found")
    ∧ (ProductRepository.DeleteProductById (Pool.healthy seedTable) 5).1
        = some "Product with id 5 not found"
    ∧ (ProductRepository.DeleteProductById (Pool.healthy seedTable) 5).2.table = seedTable :=
  ⟨by decide, rfl,
    (C1_absent_identifier_not_found (Pool.healthy seedTable) 5 (by decide)).1 rfl,
    (C1_absent_identifier_not_found (Pool.healthy seedTable) 5 (by decide)).2.1,
    (C1_absent_identifier_not_found (Pool.healthy seedTable) 5 (by decide)).2.2.1⟩

/-- C2: for an update record `u` with at least one non-default field, `UpdateProduct`
succeeds on a pool without faults that holds a row with the identifier of `u`, and whenever
it succeeds every row with that identifier has exactly the non-default fields of `u`
overwritten (name when non-empty, price and discount when non-zero, store when non-empty)
and all its other fields, the identifier included, as before, while the other rows and the
identifier sequence are unchanged. When only the name is non-default, only the name
changes. -/
theorem C2_update_overwrites_non_default_fields (pool : Pool) (u : Product)
    (hAny : u.Name ≠ "" ∨ u.Price.ne0 = true ∨ u.Discount.ne0 = true ∨ u.Store ≠ "") :
    (pool.faults = [] → (∃ r ∈ pool.table.rows, r.Id = u.Id) →
        (ProductRepository.UpdateProduct pool u).1 = none)
    ∧ ((ProductRepository.UpdateProduct pool u).1 = none →
        (ProductRepository.UpdateProduct pool u).2.table.rows
            = pool.table.rows.map (fun r => if r.Id = u.Id then mergeUpdate r u else r)
          ∧ (ProductRepository.UpdateProduct pool u).2.table.nextId = pool.table.nextId)
    ∧ (∀ r : Product, (mergeUpdate r u).Id = r.Id
        ∧ (mergeUpdate r u).Name = (if u.Name ≠ "" then u.Name else r.Name)
        ∧ (mergeUpdate r u).Price = (if u.Price.ne0 then u.Price else r.Price)
        ∧ (mergeUpdate r u).Discount = (if u.Discount.ne0 then u.Discount else r.Discount)
        ∧ (mergeUpdate r u).Store = (if u.Store ≠ "" then u.Store else r.Store))
    ∧ (u.Price.ne0 = false → u.Discount.ne0 = false → u.Store = "" →
        ∀ r : Product, mergeUpdate r u = ⟨r.Id, u.Name, r.Price, r.Discount, r.Store⟩) := by
  refine ⟨?_, ?_, ?_, ?_⟩
  · intro hF hRow
    have hOk : pool.nextFault = none := by simp [Pool.nextFault, hF]
    rw [UpdateProduct_checked pool u (GetProductById_present pool u.Id hOk hRow)]
    have hOk1 : (pool.logged getByIdSql [Arg.bigint u.Id]).nextFault = none := by
      simp [Pool.nextFault, Pool.logged, hF]
    rw [Exec_update_ok _ u hOk1 hAny]
  · intro hNone
    by_cases hGet : (ProductRepository.GetProductById pool u.Id).1.2 = none
    · rw [UpdateProduct_checked pool u hGet] at hNone ⊢
      cases hf : (pool.logged getByIdSql [Arg.bigint u.Id]).nextFault with
      | some e =>
        rw [Exec_fault _ _ _ e hf] at hNone
        simp at hNone
      | none =>
        rw [Exec_update_ok _ u hf hAny]
        exact ⟨rfl, rfl⟩
    · rw [UpdateProduct_error pool u hGet] at hNone
      simp at hNone
  · intro r
    exact ⟨rfl, rfl, rfl, rfl, rfl⟩
  · intro hP hD hS r
    have hN : u.Name ≠ "" := by
      rcases hAny with h | h | h | h
      · exact h
      · rw [hP] at h; exact absurd h (by decide)
      · rw [hD] at h; exact absurd h (by decide)
      · exact absurd hS h
    simp [mergeUpdate, hP, hD, hS, hN]

/-- Witness of C2: renaming product 1 of the seeded table; only its name changes. -/
theorem C2_update_overwrites_non_default_fields_witness :
    (("Mixer" : String) ≠ "" ∨ F32.zero.ne0 = true ∨ F32.zero.ne0 = true ∨ ("" : String) ≠ "")
    ∧ (Pool.healthy seedTable).faults = []
    ∧ (ProductRepository.UpdateProduct (Pool.healthy seedTable)
          ⟨1, "Mixer", F32.zero, F32.zero, ""⟩).1 = none
    ∧ (ProductRepository.UpdateProduct (Pool.healthy seedTable)
          ⟨1, "Mixer", F32.zero, F32.zero, ""⟩).2.table.rows
        = [⟨1, "Mixer", ⟨1161527296⟩, ⟨1102053376⟩, "ABC TECH"⟩,
            ⟨2, "Ütü", ⟨1153138688⟩, ⟨1092616192⟩, "ABC TECH"⟩,
            ⟨3, "Çamaşır Makinesi", ⟨1176256512⟩, ⟨1097859072⟩, "ABC TECH"⟩,
            ⟨4, "Lambader", ⟨1157234688⟩, ⟨0⟩, "Dekorasyon Sarayı"⟩] :=
  ⟨by decide, rfl,
    (C2_update_overwrites_non_default_fields (Pool.healthy seedTable)
      ⟨1, "Mixer", F32.zero, F32.zero, ""⟩ (by decide)).1 rfl (by decide),
    ((C2_update_overwrites_non_default_fields (Pool.healthy seedTable)
      ⟨1, "Mixer", F32.zero, F32.zero, ""⟩ (by decide)).2.1 (by decide)).1.trans (by decide)⟩

/-- C3: for every record with at least one non-default field, the statement text built by
`UpdateProduct` is "UPDATE products SET " followed by one assignment "<column> = $<n>" for
exactly the non-default fields, in the order name, price, discount, store, separated by
commas without a trailing comma and numbered 1..k, followed by " WHERE id = $<k+1>"; the
arguments are those k field values in the same order followed by the identifier; and two
records with the same set of non-default fields yield the same text. -/
theorem C3_update_statement_text (p : Product)
    (hAny : p.Name ≠ "" ∨ p.Price.ne0 = true ∨ p.Discount.ne0 = true ∨ p.Store ≠ "") :
    (ProductRepository.updateStatement p).1
        = specUpdateText ((eligibleFields p).map Prod.fst)
    ∧ (ProductRepository.updateStatement p).2
        = (eligibleFields p).map Prod.snd ++ [Arg.bigint p.Id]
    ∧ (∀ q : Product, (q.Name ≠ "" ↔ p.Name ≠ "") → q.Price.ne0 = p.Price.ne0 →
        q.Discount.ne0 = p.Discount.ne0 → (q.Store ≠ "" ↔ p.Store ≠ "") →
        (ProductRepository.updateStatement q).1 = (ProductRepository.updateStatement p).1) := by
  refine ⟨?_, ?_, ?_⟩
  · rw [updateStatement_text p hAny]
    by_cases hN : p.Name = "" <;> cases hP : p.Price.ne0 <;> cases hD : p.Discount.ne0
      <;> by_cases hS : p.Store = ""
      <;> simp [hN, hP, hD, hS, updateText, eligibleFields]
  · by_cases hN : p.Name = "" <;> cases hP : p.Price.ne0 <;> cases hD : p.Discount.ne0
      <;> by_cases hS : p.Store = ""
      <;> simp [hN, hP, hD, hS, ProductRepository.updateStatement, eligibleFields]
  · intro q hN hP hD hS
    have hAnyQ : q.Name ≠ "" ∨ q.Price.ne0 = true ∨ q.Discount.ne0 = true ∨ q.Store ≠ "" := by
      rcases hAny with h | h | h | h
      · exact Or.inl (hN.mpr h)
      · exact Or.inr (Or.inl (hP.trans h))
      · exact Or.inr (Or.inr (Or.inl (hD.trans h)))
      · exact Or.inr (Or.inr (Or.inr (hS.mpr h)))
    rw [updateStatement_text p hAny, updateStatement_text q hAnyQ, hP, hD,
      decide_eq_decide.mpr hN, decide_eq_decide.mpr hS]

/-- Witness of C3: the record of `TestUpdateProduct`, all four fields non-default. -/
theorem C3_update_statement_text_witness :
    (("Fırın" : String) ≠ "" ∨ (F32.mk 1165623296).ne0 = true
      ∨ (F32.mk 1102053376).ne0 = true ∨ ("ABC TECH" : String) ≠ "")
    ∧ ProductRepository.updateStatement ⟨1, "Fırın", ⟨1165623296⟩, ⟨1102053376⟩, "ABC TECH"⟩
      = ("UPDATE products SET name = $1,price = $2,discount = $3,store = $4 WHERE id = $5",
          [Arg.text "Fırın", Arg.real ⟨1165623296⟩, Arg.real ⟨1102053376⟩,
            Arg.text "ABC TECH", Arg.bigint 1]) :=
  ⟨by decide,
    Prod.ext
      ((C3_update_statement_text ⟨1, "Fırın", ⟨1165623296⟩, ⟨1102053376⟩, "ABC TECH"⟩
        (by decide)).1.trans (by decide))
      ((C3_update_statement_text ⟨1, "Fırın", ⟨1165623296⟩, ⟨1102053376⟩, "ABC TECH"⟩
        (by decide)).2.1.trans (by decide))⟩

/-- C4: for a pool that holds a row with the identifier of `u` and executes the existence
query, and an update record `u` whose name and store are empty and whose price and discount
are zero, the statement built is "UPDATE products SET WHERE id = $1" with the identifier as
its single argument, the store rejects that text, and `UpdateProduct` returns
"Error while updating product with id <i>" and leaves the table unchanged. -/
theorem C4_empty_update_is_rejected (pool : Pool) (u : Product)
    (hRow : ∃ r ∈ pool.table.rows, r.Id = u.Id) (hOk : pool.nextFault = none)
    (hN : u.Name = "") (hP : u.Price.ne0 = false) (hD : u.Discount.ne0 = false)
    (hS : u.Store = "") :
    ProductRepository.updateStatement u
        = ("UPDATE products SET WHERE id = $1", [Arg.bigint u.Id])
    ∧ parseStmt "UPDATE products SET WHERE id = $1" = none
    ∧ (ProductRepository.UpdateProduct pool u).1
        = some ("Error while updating product with id " ++ sprintD u.Id)
    ∧ (ProductRepository.UpdateProduct pool u).2.table = pool.table
    ∧ (ProductRepository.UpdateProduct pool u).2.log
        = pool.log ++ [("SELECT * FROM products WHERE id = $1", [Arg.bigint u.Id]),
            ("UPDATE products SET WHERE id = $1", [Arg.bigint u.Id])] := by
  refine ⟨updateStatement_none u hN hP hD hS, parse_updateText_none, ?_⟩
  rw [UpdateProduct_checked pool u (GetProductById_present pool u.Id hOk hRow),
    updateStatement_none u hN hP hD hS]
  cases hf : (pool.logged getByIdSql [Arg.bigint u.Id]).nextFault with
  | some e =>
    rw [Exec_fault _ _ _ e hf]
    simp [Pool.logged, getByIdSql]
  | none =>
    rw [Exec_reject _ _ _ hf parse_updateText_none]
    simp [Pool.logged, getByIdSql]

/-- Witness of C4: an update of product 1 of the seeded table that carries only the
identifier (its discount is the negative zero, which Go also compares equal to 0). -/
theorem C4_empty_update_is_rejected_witness :
    (∃ r ∈ (Pool.healthy seedTable).table.rows, r.Id = 1)
    ∧ (Pool.healthy seedTable).nextFault = none
    ∧ (F32.mk 2147483648).ne0 = false
    ∧ (ProductRepository.UpdateProduct (Pool.healthy seedTable)
          ⟨1, "", F32.zero, ⟨2147483648⟩, ""⟩).1
        = some "Error while updating product with id 1"
    ∧ (ProductRepository.UpdateProduct (Pool.healthy seedTable)
          ⟨1, "", F32.zero, ⟨2147483648⟩, ""⟩).2.table = seedTable :=
  ⟨by decide, rfl, by decide,
    (C4_empty_update_is_rejected (Pool.healthy seedTable) ⟨1, "", F32.zero, ⟨2147483648⟩, ""⟩
      (by decide) rfl rfl (by decide) (by decide) rfl).2.2.1,
    (C4_empty_update_is_rejected (Pool.healthy seedTable) ⟨1, "", F32.zero, ⟨2147483648⟩, ""⟩
      (by decide) rfl rfl (by decide) (by decide) rfl).2.2.2.1⟩

/-- C5: for every pool and every record `r`, whatever its identifier field holds:
`AddProduct` succeeds when the store executes the insert and the next identifier of the
sequence is free, and whenever it succeeds the table holds exactly one new row after the
unchanged old ones, its identifier `n` is the one the store assigned and no old row had it,
and `GetProductById n` (when the store executes it) returns the product with identifier `n`
and the name, price, discount and store of `r`. -/
theorem C5_add_then_get_by_new_identifier (pool : Pool) (r : Product) :
    (pool.nextFault = none → (∀ x ∈ pool.table.rows, x.Id ≠ pool.table.nextId) →
        (ProductRepository.AddProduct pool r).1 = none)
    ∧ ((ProductRepository.AddProduct pool r).1 = none →
        (ProductRepository.AddProduct pool r).2.table.rows
            = pool.table.rows
              ++ [⟨pool.table.nextId, r.Name, r.Price, r.Discount, r.Store⟩]
          ∧ (∀ x ∈ pool.table.rows, x.Id ≠ pool.table.nextId)
          ∧ ((ProductRepository.AddProduct pool r).2.nextFault = none →
              (ProductRepository.GetProductById (ProductRepository.AddProduct pool r).2
                  pool.table.nextId).1
                = (⟨pool.table.nextId, r.Name, r.Price, r.Discount, r.Store⟩, none))) := by
  constructor
  · intro hOk hFresh
    rw [AddProduct_ok pool r hOk]
    have : pool.table.rows.any (fun x => decide (x.Id = pool.table.nextId)) = false := by
      rw [List.any_eq_false]
      intro x hx
      simpa using hFresh x hx
    simp [this]
  · intro hNone
    cases hf : pool.nextFault with
    | some e =>
      rw [AddProduct_fault pool r e hf] at hNone
      simp at hNone
    | none =>
      rw [AddProduct_ok pool r hf] at hNone ⊢
      by_cases hDup : pool.table.rows.any (fun x => decide (x.Id = pool.table.nextId)) = true
      · simp [hDup] at hNone
      · have hFresh : ∀ x ∈ pool.table.rows, x.Id ≠ pool.table.nextId := by
          intro x hx hEq
          apply hDup
          rw [List.any_eq_true]
          exact ⟨x, hx, by simpa using hEq⟩
        simp only [hDup]
        refine ⟨rfl, hFresh, ?_⟩
        intro hNext
        rw [GetProductById_ok _ _ hNext]
        have := filter_id_append_new pool.table.rows
          ⟨pool.table.nextId, r.Name, r.Price, r.Discount, r.Store⟩ hFresh
        simp only [if_false, Bool.false_eq_true] at this ⊢
        rw [this]

/-- Witness of C5: the product of `TestAddProduct` added to an empty table whose sequence
stands at 1; the identifier field 77 of the input is ignored. -/
theorem C5_add_then_get_by_new_identifier_witness :
    (Pool.healthy ⟨[], 1⟩).nextFault = none
    ∧ (ProductRepository.AddProduct (Pool.healthy ⟨[], 1⟩)
          ⟨77, "Kupa", ⟨1120403456⟩, F32.zero, "RBD"⟩).1 = none
    ∧ (ProductRepository.AddProduct (Pool.healthy ⟨[], 1⟩)
          ⟨77, "Kupa", ⟨1120403456⟩, F32.zero, "RBD"⟩).2.table.rows
        = [⟨1, "Kupa", ⟨1120403456⟩, F32.zero, "RBD"⟩]
    ∧ (ProductRepository.GetProductById
          (ProductRepository.AddProduct (Pool.healthy ⟨[], 1⟩)
            ⟨77, "Kupa", ⟨1120403456⟩, F32.zero, "RBD"⟩).2 1).1
        = (⟨1, "Kupa", ⟨1120403456⟩, F32.zero, "RBD"⟩, none) :=
  ⟨rfl,
    (C5_add_then_get_by_new_identifier (Pool.healthy ⟨[], 1⟩)
      ⟨77, "Kupa", ⟨1120403456⟩, F32.zero, "RBD"⟩).1 rfl (by decide),
    ((C5_add_then_get_by_new_identifier (Pool.healthy ⟨[], 1⟩)
      ⟨77, "Kupa", ⟨1120403456⟩, F32.zero, "RBD"⟩).2 (by decide)).1,
    ((C5_add_then_get_by_new_identifier (Pool.healthy ⟨[], 1⟩)
      ⟨77, "Kupa", ⟨1120403456⟩, F32.zero, "RBD"⟩).2 (by decide)).2.2 (by decide)⟩

/-- C6: for every table state, every log and every identifier, present or absent, on a pool
without faults `DeleteProductById id` followed by `GetProductById id` returns the zero
product with the error "Product with id <id> not found". -/
theorem C6_delete_then_get_not_found (t : Table) (log : List (String × List Arg)) (id : Int) :
    (ProductRepository.GetProductById
        (ProductRepository.DeleteProductById ⟨t, [], log⟩ id).2 id).1
      = (Product.zero, some ("Product with id " ++ sprintD id ++ " not found")) := by
  obtain ⟨hRows, hFaults⟩ := DeleteProductById_healthy t log id
  have hNext : (ProductRepository.DeleteProductById ⟨t, [], log⟩ id).2.nextFault = none := by
    simp [Pool.nextFault, hFaults]
  rw [GetProductById_ok _ id hNext, hRows, filter_id_of_filter_ne]
  rfl

/-- C7: on a pool whose store executes the query, `GetAllProducts` returns the rows in
storage order and `GetAllProductsByStore S` returns exactly those of them whose store equals
`S`, each once and in the same relative order; and the loop of the fake repository equals
filtering its product list by `Store == S`. -/
theorem C7_by_store_is_filter_of_all (pool : Pool) (hOk : pool.nextFault = none)
    (storeName : String) (products : List Product) :
    (ProductRepository.GetAllProducts pool).1 = pool.table.rows
    ∧ (ProductRepository.GetAllProductsByStore pool storeName).1
        = (ProductRepository.GetAllProducts pool).1.filter
            (fun p => decide (p.Store = storeName))
    ∧ ((ProductRepository.GetAllProductsByStore pool storeName).1).Sublist
        (ProductRepository.GetAllProducts pool).1
    ∧ FakeProductRepository.GetAllProductsByStore products storeName
        = (FakeProductRepository.GetAllProducts products).filter
            (fun p => decide (p.Store = storeName))
    ∧ (FakeProductRepository.GetAllProductsByStore products storeName).Sublist
        (FakeProductRepository.GetAllProducts products) := by
  have hAll : (ProductRepository.GetAllProducts pool).1 = pool.table.rows := by
    unfold ProductRepository.GetAllProducts Pool.Query
    rw [send_ok pool _ _ _ hOk parse_selectAll]
    simp [execStmt, Stmt.arity, extractProductsForRows_eq]
  have hStore : (ProductRepository.GetAllProductsByStore pool storeName).1
      = (ProductRepository.GetAllProducts pool).1.filter
          (fun p => decide (p.Store = storeName)) := by
    rw [hAll]
    unfold ProductRepository.GetAllProductsByStore Pool.Query
    simp only
    rw [send_ok pool _ _ _ hOk parse_selectByStore]
    simp [execStmt, Stmt.arity, argAt, extractProductsForRows_eq]
  have hFake : FakeProductRepository.GetAllProductsByStore products storeName
      = (FakeProductRepository.GetAllProducts products).filter
          (fun p => decide (p.Store = storeName)) := by
    unfold FakeProductRepository.GetAllProductsByStore FakeProductRepository.GetAllProducts
    have key : ∀ (l acc : List Product),
        l.foldl (fun productsByStore product =>
            if product.Store = storeName then productsByStore ++ [product]
            else productsByStore) acc
          = acc ++ l.filter (fun p => decide (p.Store = storeName)) := by
      intro l
      induction l with
      | nil => intro acc; simp
      | cons x xs ih =>
        intro acc
        by_cases hx : x.Store = storeName
        · simp [List.foldl, ih, hx]
        · simp [List.foldl, ih, hx]
    simpa using key products []
  refine ⟨hAll, hStore, ?_, hFake, ?_⟩
  · rw [hStore]
    exact List.filter_sublist _
  · rw [hFake]
    exact List.filter_sublist _

/-- Witness of C7: store "ABC TECH" on the seeded table, as in `TestGetAllProductsByStore`,
and on the same four products held by the fake. -/
theorem C7_by_store_is_filter_of_all_witness :
    (Pool.healthy seedTable).nextFault = none
    ∧ (ProductRepository.GetAllProductsByStore (Pool.healthy seedTable) "ABC TECH").1
        = [⟨1, "AirFryer", ⟨1161527296⟩, ⟨1102053376⟩, "ABC TECH"⟩,
            ⟨2, "Ütü", ⟨1153138688⟩, ⟨1092616192⟩, "ABC TECH"⟩,
            ⟨3, "Çamaşır Makinesi", ⟨1176256512⟩, ⟨1097859072⟩, "ABC TECH"⟩]
    ∧ FakeProductRepository.GetAllProductsByStore seedTable.rows "Dekorasyon Sarayı"
        = [⟨4, "Lambader", ⟨1157234688⟩, ⟨0⟩, "Dekorasyon Sarayı"⟩] :=
  ⟨rfl,
    (C7_by_store_is_filter_of_all (Pool.healthy seedTable) rfl "ABC TECH"
      seedTable.rows).2.1.trans (by decide),
    (C7_by_store_is_filter_of_all (Pool.healthy seedTable) rfl "Dekorasyon Sarayı"
      seedTable.rows).2.2.2.1.trans (by decide)⟩

/-- C8 as stated fails: "9223372036854775808" is a digit string that `Atoi` cannot parse,
yet the handlers call the service with 9223372036854775807, not with 0. -/
theorem C8_range_error_is_not_zero :
    ¬ (∀ s : Bytes, (Atoi s).2 ≠ none →
        (ProductController.GetProductById recordingService [] s).2 = [0]
        ∧ (ProductController.DeleteProductById recordingService [] s).2 = [0]) := by
  intro h
  have h1 := (h (bytesOf "9223372036854775808") (by decide)).1
  revert h1
  decide

/-- C8, amended: the handlers `GetProductById` and `DeleteProductById` call the service with
the value `Atoi` returns for the path identifier, whatever its error: with `n` when `Atoi`
parses the string to `n`, with 0 when `Atoi` reports a syntax error, and when `Atoi` reports
a range error with the bound of `int` of the sign of the input, -9223372036854775808 when the
string starts with `-` and 9223372036854775807 otherwise. What `Atoi` returns is
`atoiOutcome`: with `ds` the longest run of decimal digits after an optional leading `+` or
`-`, a syntax error when nothing follows the optional sign or when a byte follows `ds` and
the value of `ds` fits 64 bits, a range error when the value of `ds` does not fit 64 bits or
when nothing follows `ds` and its signed value does not fit `int`, and the signed value of
`ds` otherwise. In particular a non-empty string of decimal digits is parsed to its value
when that is at most 9223372036854775807 and is a range error with 9223372036854775807
otherwise, and after a minus sign a value above 9223372036854775808 is a range error with
-9223372036854775808. -/
theorem C8_identifier_parsing {σ : Type} (productService : IProductService σ) (st : σ)
    (s : Bytes) :
    (∀ n : Int, Atoi s = (n, none) →
        ProductController.GetProductById productService st s
            = ProductController.respondGetProductById (productService.GetProductById st n)
        ∧ ProductController.DeleteProductById productService st s
            = ProductController.respondDeleteProductById
                (productService.DeleteProductById st n))
    ∧ ((Atoi s).2 = some NumError.ErrSyntax →
        ProductController.GetProductById productService st s
            = ProductController.respondGetProductById (productService.GetProductById st 0)
        ∧ ProductController.DeleteProductById productService st s
            = ProductController.respondDeleteProductById
                (productService.DeleteProductById st 0))
    ∧ ((Atoi s).2 = some NumError.ErrRange →
        ProductController.GetProductById productService st s
            = ProductController.respondGetProductById
                (productService.GetProductById st
                  (if s.head? = some 45 then -9223372036854775808 else 9223372036854775807))
        ∧ ProductController.DeleteProductById productService st s
            = ProductController.respondDeleteProductById
                (productService.DeleteProductById st
                  (if s.head? = some 45 then -9223372036854775808 else 9223372036854775807)))
    ∧ ((∀ c ∈ s, c < 256) → Atoi s = atoiOutcome s)
    ∧ (s ≠ [] → allDigits s → decimalFrom 0 s < 9223372036854775808 →
        Atoi s = (((decimalFrom 0 s : Nat) : Int), none))
    ∧ (s ≠ [] → allDigits s → 9223372036854775808 ≤ decimalFrom 0 s →
        Atoi s = (9223372036854775807, some NumError.ErrRange))
    ∧ (s ≠ [] → allDigits s → 9223372036854775808 < decimalFrom 0 s →
        Atoi (45 :: s) = (-9223372036854775808, some NumError.ErrRange)) := by
  refine ⟨?_, ?_, ?_, ?_, ?_, ?_, ?_⟩
  · intro n hn
    simp [ProductController.GetProductById, ProductController.DeleteProductById, hn]
  · intro hs
    simp [ProductController.GetProductById, ProductController.DeleteProductById,
      Atoi_syntax s hs]
  · intro hr
    have hv := Atoi_range_sign s hr
    unfold ProductController.GetProductById ProductController.DeleteProductById
    simp only [hv, and_self]
  · intro hb
    exact Atoi_outcome s hb
  · intro hne hs hv
    rw [Atoi_digits s hne hs, if_pos hv]
  · intro hne hs hv
    rw [Atoi_digits s hne hs, if_neg (by omega)]
  · intro hne hs hv
    rw [Atoi_minus_digits s hne hs, if_neg (by omega)]

/-- Witness of C8: "12x" is a syntax error and reaches the service as 0;
"9223372036854775808", "+99999999999999999999" and "99999999999999999999x" are range errors
and reach it as 9223372036854775807; "-9223372036854775809" is a range error and reaches it
as -9223372036854775808. -/
theorem C8_identifier_parsing_witness :
    (Atoi (bytesOf "12x")).2 = some NumError.ErrSyntax
    ∧ (ProductController.GetProductById recordingService [] (bytesOf "12x")).2 = [0]
    ∧ bytesOf "9223372036854775808" ≠ []
    ∧ allDigits (bytesOf "9223372036854775808")
    ∧ 9223372036854775808 ≤ decimalFrom 0 (bytesOf "9223372036854775808")
    ∧ Atoi (bytesOf "9223372036854775808")
        = (9223372036854775807, some NumError.ErrRange)
    ∧ (Atoi (bytesOf "+99999999999999999999")).2 = some NumError.ErrRange
    ∧ (ProductController.DeleteProductById recordingService []
          (bytesOf "+99999999999999999999")).2 = [9223372036854775807]
    ∧ (Atoi (bytesOf "99999999999999999999x")).2 = some NumError.ErrRange
    ∧ (ProductController.GetProductById recordingService []
          (bytesOf "99999999999999999999x")).2 = [9223372036854775807]
    ∧ (Atoi (bytesOf "-9223372036854775809")).2 = some NumError.ErrRange
    ∧ (ProductController.DeleteProductById recordingService []
          (bytesOf "-9223372036854775809")).2 = [-9223372036854775808]
    ∧ (∀ c ∈ bytesOf "99999999999999999999x", c < 256)
    ∧ Atoi (bytesOf "99999999999999999999x")
        = atoiOutcome (bytesOf "99999999999999999999x") :=
  ⟨by decide,
    (congrArg Prod.snd
      ((C8_identifier_parsing recordingService [] (bytesOf "12x")).2.1 (by decide)).1).trans
      (by decide),
    by decide, by decide, by decide,
    (C8_identifier_parsing recordingService []
      (bytesOf "9223372036854775808")).2.2.2.2.2.1 (by decide) (by decide) (by decide),
    by decide,
    (congrArg Prod.snd
      ((C8_identifier_parsing recordingService []
        (bytesOf "+99999999999999999999")).2.2.1 (by decide)).2).trans (by decide),
    by decide,
    (congrArg Prod.snd
      ((C8_identifier_parsing recordingService []
        (bytesOf "99999999999999999999x")).2.2.1 (by decide)).1).trans (by decide),
    by decide,
    (congrArg Prod.snd
      ((C8_identifier_parsing recordingService []
        (bytesOf "-9223372036854775809")).2.2.1 (by decide)).2).trans (by decide),
    by decide,
    (C8_identifier_parsing recordingService []
      (bytesOf "99999999999999999999x")).2.2.2.1 (by decide)⟩

/-- C9: the inner `GetProductById` returns no error, the not-found error or the generic
read-failure error; whenever it returns an error, `DeleteProductById` and `UpdateProduct`
return exactly "Product with id <id> not found", stop in the state the existence query
left, and leave the table unchanged; and the statements they send are the existence query
followed by the `DELETE`, respectively the built `UPDATE`, exactly when the inner
`GetProductById` returned no error. -/
theorem C9_existence_check_reports_not_found (pool : Pool) (id : Int) (p : Product) :
    ((ProductRepository.GetProductById pool id).1.2 = none
      ∨ (ProductRepository.GetProductById pool id).1.2
          = some ("Product with id " ++ sprintD id ++ " not found")
      ∨ (ProductRepository.GetProductById pool id).1.2
          = some ("Error while getting product with id " ++ sprintD id ++ " not found"))
    ∧ ((ProductRepository.GetProductById pool id).1.2 ≠ none →
        ProductRepository.DeleteProductById pool id
            = (some ("Product with id " ++ sprintD id ++ " not found"),
                (ProductRepository.GetProductById pool id).2)
          ∧ (ProductRepository.DeleteProductById pool id).2.table = pool.table)
    ∧ (ProductRepository.DeleteProductById pool id).2.log
        = pool.log ++ [("SELECT * FROM products WHERE id = $1", [Arg.bigint id])]
          ++ (if (ProductRepository.GetProductById pool id).1.2 = none then
                [("DELETE FROM products WHERE id = $1", [Arg.bigint id])]
              else [])
    ∧ ((ProductRepository.GetProductById pool p.Id).1.2 ≠ none →
        ProductRepository.UpdateProduct pool p
            = (some ("Product with id " ++ sprintD p.Id ++ " not found"),
                (ProductRepository.GetProductById pool p.Id).2)
          ∧ (ProductRepository.UpdateProduct pool p).2.table = pool.table)
    ∧ (ProductRepository.UpdateProduct pool p).2.log
        = pool.log ++ [("SELECT * FROM products WHERE id = $1", [Arg.bigint p.Id])]
          ++ (if (ProductRepository.GetProductById pool p.Id).1.2 = none then
                [ProductRepository.updateStatement p]
              else []) := by
  refine ⟨GetProductById_error_cases pool id, ?_, ?_, ?_, ?_⟩
  · intro hErr
    rw [DeleteProductById_error pool id hErr, GetProductById_table]
    exact ⟨rfl, rfl⟩
  · by_cases hGet : (ProductRepository.GetProductById pool id).1.2 = none
    · rw [DeleteProductById_checked pool id hGet, if_pos hGet]
      have hLog := Exec_log (pool.logged getByIdSql [Arg.bigint id]) deleteSql [Arg.bigint id]
      split <;> rename_i h <;> rw [h] at hLog <;> exact hLog
    · rw [DeleteProductById_error pool id hGet, if_neg hGet]
      simp [Pool.logged, getByIdSql]
  · intro hErr
    rw [UpdateProduct_error pool p hErr, GetProductById_table]
    exact ⟨rfl, rfl⟩
  · by_cases hGet : (ProductRepository.GetProductById pool p.Id).1.2 = none
    · rw [UpdateProduct_checked pool p hGet, if_pos hGet]
      have hLog := Exec_log (pool.logged getByIdSql [Arg.bigint p.Id])
        (ProductRepository.updateStatement p).1 (ProductRepository.updateStatement p).2
      split <;> rename_i h <;> rw [h] at hLog <;> exact hLog
    · rw [UpdateProduct_error pool p hGet, if_neg hGet]
      simp [Pool.logged, getByIdSql]

/-- Witness of C9: the driver fails the existence query for the stored product 1; the read
reports the generic failure, the delete and the update report not-found and send nothing
else. -/
theorem C9_existence_check_reports_not_found_witness :
    (ProductRepository.GetProductById ⟨seedTable, [some "connection refused"], []⟩ 1).1.2
        = some "Error while getting product with id 1 not found"
    ∧ (ProductRepository.DeleteProductById ⟨seedTable, [some "connection refused"], []⟩ 1).1
        = some "Product with id 1 not found"
    ∧ (ProductRepository.DeleteProductById ⟨seedTable, [some "connection refused"], []⟩ 1).2.log
        = [("SELECT * FROM products WHERE id = $1", [Arg.bigint 1])]
    ∧ (ProductRepository.UpdateProduct ⟨seedTable, [some "connection refused"], []⟩
          ⟨1, "Mixer", F32.zero, F32.zero, ""⟩).1
        = some "Product with id 1 not found" :=
  ⟨by decide,
    congrArg Prod.fst
      ((C9_existence_check_reports_not_found ⟨seedTable, [some "connection refused"], []⟩ 1
        ⟨1, "Mixer", F32.zero, F32.zero, ""⟩).2.1 (by decide)).1,
    (C9_existence_check_reports_not_found ⟨seedTable, [some "connection refused"], []⟩ 1
      ⟨1, "Mixer", F32.zero, F32.zero, ""⟩).2.2.1.trans (by decide),
    congrArg Prod.fst
      ((C9_existence_check_reports_not_found ⟨seedTable, [some "connection refused"], []⟩ 1
        ⟨1, "Mixer", F32.zero, F32.zero, ""⟩).2.2.2.1 (by decide)).1⟩

/-- C10 as stated fails: from the products 1 and 2, deleting product 1 and adding a product
assigns `len(products) + 1 = 2` again, so two stored products share identifier 2. -/
theorem C10_add_after_delete_duplicates_identifier :
    ¬ (∀ (products : List Product) (ops : List FakeOp),
        FakeProductRepository.distinctIds products →
          FakeProductRepository.distinctIds (FakeProductRepository.run products ops)) := by
  intro h
  have h1 := h [⟨1, "a", ⟨0⟩, ⟨0⟩, "s"⟩, ⟨2, "b", ⟨0⟩, ⟨0⟩, "s"⟩]
    [FakeOp.delete 1, FakeOp.add ⟨0, "c", ⟨0⟩, ⟨0⟩, "s"⟩] (by decide)
  revert h1
  decide

/-- C10, amended: in the fake repository, from a product list with pairwise distinct
identifiers every sequence of `AddProduct`, `UpdateProduct` and `DeleteProductById` calls in
which each `AddProduct` is made when no stored product has the identifier
`len(products) + 1` leaves the identifiers pairwise distinct. `UpdateProduct` keeps the list
of identifiers as it is, `UpdateProduct` and `DeleteProductById` always keep the identifiers
distinct, and `AddProduct` keeps them distinct exactly when `len(products) + 1` is not
stored yet. -/
theorem C10_fake_identifiers_stay_distinct (products : List Product) (ops : List FakeOp)
    (hDistinct : FakeProductRepository.distinctIds products)
    (hFresh : FakeProductRepository.addsFresh products ops) :
    FakeProductRepository.distinctIds (FakeProductRepository.run products ops)
    ∧ (∀ product : Product,
        (FakeProductRepository.UpdateProduct products product).map (fun p => p.Id)
            = products.map (fun p => p.Id)
        ∧ FakeProductRepository.distinctIds
            (FakeProductRepository.UpdateProduct products product)
        ∧ (FakeProductRepository.distinctIds
              (FakeProductRepository.AddProduct products product)
            ↔ ∀ x ∈ products, x.Id ≠ (products.length : Int) + 1))
    ∧ (∀ productId : Int,
        FakeProductRepository.distinctIds
          (FakeProductRepository.DeleteProductById products productId)) := by
  refine ⟨?_, ?_, ?_⟩
  · unfold FakeProductRepository.run
    induction ops generalizing products with
    | nil => exact hDistinct
    | cons op rest ih =>
      rw [List.foldl_cons]
      cases op with
      | add product =>
        obtain ⟨hNew, hRest⟩ := hFresh
        exact ih _ ((fake_add_distinct_iff products product hDistinct).mpr hNew) hRest
      | update product =>
        exact ih _ (fake_update_distinct products product hDistinct) hFresh
      | delete productId =>
        exact ih _ (fake_delete_distinct products productId hDistinct) hFresh
  · intro product
    exact ⟨fake_update_ids products product, fake_update_distinct products product hDistinct,
      fake_add_distinct_iff products product hDistinct⟩
  · intro productId
    exact fake_delete_distinct products productId hDistinct

/-- Witness of C10: on the four seeded products, an add (identifier 5), an update of
product 2 and a delete of product 3. -/
theorem C10_fake_identifiers_stay_distinct_witness :
    FakeProductRepository.distinctIds seedTable.rows
    ∧ FakeProductRepository.addsFresh seedTable.rows
        [FakeOp.add ⟨0, "Kupa", ⟨1120403456⟩, F32.zero, "RBD"⟩,
          FakeOp.update ⟨2, "Mixer", F32.zero, F32.zero, ""⟩, FakeOp.delete 3]
    ∧ FakeProductRepository.distinctIds
        (FakeProductRepository.run seedTable.rows
          [FakeOp.add ⟨0, "Kupa", ⟨1120403456⟩, F32.zero, "RBD"⟩,
            FakeOp.update ⟨2, "Mixer", F32.zero, F32.zero, ""⟩, FakeOp.delete 3]) :=
  ⟨by decide, ⟨by decide, trivial⟩,
    (C10_fake_identifiers_stay_distinct seedTable.rows
      [FakeOp.add ⟨0, "Kupa", ⟨1120403456⟩, F32.zero, "RBD"⟩,
        FakeOp.update ⟨2, "Mixer", F32.zero, F32.zero, ""⟩, FakeOp.delete 3]
      (by decide) ⟨by decide, trivial⟩).1⟩

end ProductApp
